import Mathlib

/-!
Shallow embedding of the micro-turtle firmware core (vm.c, motors.c, config.c)
for checking the natural-language specification against the code.

Modelling conventions:
* C fixed-width unsigned integers (uint8_t/uint16_t/uint32_t) are modelled as
  Nat; signed ones (int8_t/int16_t/int32_t) as Int.  Wherever C wrap-around or
  signed/unsigned conversion is observable, it is made explicit with the
  helpers below (emod 2^32, emod 256 ...).
* C truncating integer division is Int.tdiv (Lean's / on Int is Euclidean
  division, which differs on negative operands).
* Heap pointers/NULL: the doubly linked stack-frame chain of vm.c is a Lean
  list whose head is the current frame (the C `sp`); `locals == NULL` holds
  exactly when the frame was created with local_count == 0, so it is modelled
  by the list of locals being empty, and similarly for the operand stack and
  the globals array.  os_malloc is assumed to succeed (allocation-failure
  paths are not modelled).
* The C operand stack is an array indexed 0..stack_size-1 with the top at
  index stack_size-1; here it is a list with the top at the head.
* `float` arithmetic of motors.c is modelled exactly over ℚ.  Comments at the
  relevant theorems explain why the modelled comparisons are robust to
  single-precision rounding for the concrete inputs used.
* Timers, task queues, GPIO and web-socket broadcasts are external effects;
  state-changing effects visible to the claims (GPIO masks, callbacks,
  motor commands) are returned explicitly as data.
-/

/-! ### Machine-integer helpers -/

/-- Two's-complement value of the low 32 bits of an integer, as the int32_t
a C conversion would produce. -/
def i32_clip (x : Int) : Int :=
  let r := x % 2 ^ 32
  if r < 2 ^ 31 then r else r - 2 ^ 32

/-- The uint32_t a C conversion of an int32_t value produces. -/
def u32_of_i32 (x : Int) : Nat := (x % 2 ^ 32).toNat

/-- Two's-complement int8_t value of the low 8 bits of an integer. -/
def int8_of (x : Int) : Int :=
  let r := x % 256
  if r < 128 then r else r - 256

/-- BYTES_TO_INT32 of vm.c: four consecutive code bytes, big endian, read as
a signed 32-bit integer. -/
def bytes_to_int32 (code : List Nat) (idx : Nat) : Int :=
  i32_clip (((code.getD idx 0) * 2 ^ 24 + (code.getD (idx + 1) 0) * 2 ^ 16 +
    (code.getD (idx + 2) 0) * 2 ^ 8 + (code.getD (idx + 3) 0) : Nat) : Int)

/-! ### vm.h data model -/

/-- function_t of vm.h. The `length` field is the declared code length in
bytes; the VM trusts it rather than the actual extent of `code` (reads past
the end of `code` by the C program are modelled by List.getD returning 0). -/
structure function_t where
  id : Nat
  argument_count : Nat
  local_count : Nat
  stack_size : Nat
  length : Nat
  code : List Nat
deriving DecidableEq, Repr

/-- Default function_t, standing for the arbitrary bytes an out-of-bounds
C array read would yield. -/
def fn_default : function_t := ⟨0, 0, 0, 0, 0, []⟩

/-- program_t of vm.h. -/
structure program_t where
  global_count : Nat
  function_count : Nat
  functions : List function_t
deriving DecidableEq, Repr

/-- prog_status_t of vm.h. -/
inductive prog_status_t where
  | IDLE
  | RUNNING
  | ERROR
deriving DecidableEq, Repr

open prog_status_t

/-- stack_frame_t of vm.c.  The C `stack_size` counter is the length of the
`stack` list; prev/next pointers are the position in the frame list of the
VM state (head = current frame = C `sp`). -/
structure stack_frame_t where
  pc_func : Nat
  pc_idx : Nat
  local_count : Nat
  locals : List Int
  max_stack_size : Nat
  stack : List Int
deriving DecidableEq, Repr

/-- The module-level mutable state of vm.c: program_status, program, the
frame chain (head = sp) and the globals array (global_t.values, whose
global_count is the list length). -/
structure vm_state where
  program_status : prog_status_t
  program : Option program_t
  frames : List stack_frame_t
  globals : List Int
deriving DecidableEq, Repr

/-- The configuration values vm.c reads while dispatching (config.c
accessors get_straight_steps / get_turn_steps). -/
structure vm_config where
  straight_steps_left : Nat
  straight_steps_right : Nat
  turn_steps_left : Nat
  turn_steps_right : Nat
deriving DecidableEq, Repr

/-- Externally visible commands the VM issues while executing instructions:
motor commands (drive_motors arguments), servo commands, and arming of the
post-movement pause timer. -/
inductive vm_event where
  | drive (left right ticks : Int)
  | servo (up : Bool)
  | pause
deriving DecidableEq, Repr

/-! ### vm.c constants -/

/-- MAX_VAR_COUNT of vm.c. -/
def MAX_VAR_COUNT : Nat := 32

/-- MAX_STACK_SIZE of vm.c. -/
def MAX_STACK_SIZE : Nat := 32

/-- MAX_FUNC_COUNT of vm.c. -/
def MAX_FUNC_COUNT : Nat := 64

/-- MAX_FUNC_LEN of vm.c. -/
def MAX_FUNC_LEN : Nat := 2048

/-- INSTR_LEN of vm.c: per-opcode encoded instruction lengths, 44 entries
(opcodes 44..47, FDRAW..RTRAW, fall outside the table; a C read there is
out of bounds and is modelled by getD returning 0). -/
def INSTR_LEN : List Nat :=
  [0, 1, 1, 1, 1, 1, 1, 1, 1, 1, 1, 1, 1, 1, 1, 5,
   1, 1, 1, 5, 1, 1, 1, 5, 1, 1, 1, 5, 1, 1, 1, 5,
   1, 1, 1, 1, 1, 1, 5, 1, 1, 5, 5, 5]

/-! ### vm.c stack helpers -/

/-- stack_push of vm.c, acting on the current frame.  Returns the C bool
result and the updated frame: on overflow it logs, returns false and leaves
the frame unchanged (the value is dropped). -/
def stack_push (sp : stack_frame_t) (val : Int) : Bool × stack_frame_t :=
  if sp.max_stack_size ≤ sp.stack.length then (false, sp)
  else (true, { sp with stack := val :: sp.stack })

/-- stack_pop of vm.c, acting on the current frame.  On underflow it logs and
returns the sentinel 0, leaving the frame unchanged. -/
def stack_pop (sp : stack_frame_t) : Int × stack_frame_t :=
  match sp.stack with
  | [] => (0, sp)
  | v :: rest => (v, { sp with stack := rest })

/-- create_stack_frame of vm.c (allocation assumed to succeed).  Note that
pc.func is the callee's `id` field, not its index, and that the C locals
array is os_malloc'd without initialisation; it is modelled as zeros. -/
def create_stack_frame (function : function_t) : stack_frame_t :=
  { pc_func := function.id
    pc_idx := 0
    local_count := function.argument_count + function.local_count
    locals := List.replicate (function.argument_count + function.local_count) 0
    max_stack_size := function.stack_size
    stack := [] }

/-- The argument-copy loop of the INSTR_CALL case of vm.c:
`for (ii = argument_count - 1; ii >= 0; ii--) sf->locals[ii] = stack_pop();`
popping the caller's stack into locals slots argument_count-1 down to 0. -/
def pop_args : Nat → stack_frame_t → List Int → stack_frame_t × List Int
  | 0, caller, locals => (caller, locals)
  | k + 1, caller, locals =>
      let (v, caller') := stack_pop caller
      pop_args k caller' (locals.set k v)

/-- free_program of vm.c: drops the program, the whole frame chain and the
globals array. program_status is not touched by free_program itself. -/
def free_program (s : vm_state) : vm_state :=
  { s with program := none, frames := [], globals := [] }

/-- program_error of vm.c: logs, sets the status to ERROR and frees all
program state. -/
def program_error (s : vm_state) : vm_state :=
  free_program { s with program_status := ERROR }

/-- stop_program of vm.c: sets the status back to IDLE.  Its calls to
drive_motors(0,0,1,NULL) and execute_instruction (a task post) are external
effects; the freeing of the program memory happens later, in the posted
vm_execute_task invocation, which sees a non-RUNNING status. -/
def stop_program (s : vm_state) : vm_state :=
  { s with program_status := IDLE }

/-! ### vm.c instruction dispatch (vm_execute_task) -/

/-- The MAX macro of vm.c, on signed ints. -/
def cmax (a b : Int) : Int := if a > b then a else b

/-- The scaled-operand computation of the FD/BK/LT/RT cases:
`operand * scale / div` where operand is int32_t and scale is uint32_t, so C
performs the multiplication and division in uint32 arithmetic and converts
the result back to int32_t. -/
def scale_div (v : Int) (scale : Nat) (div : Nat) : Int :=
  i32_clip (((u32_of_i32 v * scale) % 2 ^ 32 / div : Nat) : Int)

/-- The bounds check at the top of vm_execute_task (vm.c line 337):
`(sp->pc.idx + INSTR_LEN[sp->pc.func]) > program->functions[sp->pc.func].length`.
Note that the source indexes the per-opcode INSTR_LEN table by the current
FUNCTION ID, not by the opcode about to execute. -/
def fell_off_check (p : program_t) (sp : stack_frame_t) : Bool :=
  decide ((p.functions.getD sp.pc_func fn_default).length <
    sp.pc_idx + INSTR_LEN.getD sp.pc_func 0)

/-- The body of vm_execute_task once status RUNNING, a program and a current
frame sp are established.  Faithfully mirrors the C: the bounds check calls
stop_program (status := IDLE plus a zero motor command) but does NOT return,
so the instruction at the program counter is executed regardless; the big
switch is the if-chain below; `auto_update_pc` is realised by each branch
either advancing sp's pc by INSTR_LEN[opcode] or installing its own pc. -/
def exec_body (cfg : vm_config) (s : vm_state) (p : program_t)
    (sp : stack_frame_t) (rest : List stack_frame_t) : vm_state × List vm_event :=
  let f := p.functions.getD sp.pc_func fn_default
  let s1 := if fell_off_check p sp then stop_program s else s
  let ev0 : List vm_event := if fell_off_check p sp then [vm_event.drive 0 0 1] else []
  let op := f.code.getD sp.pc_idx 0
  let adv : stack_frame_t → stack_frame_t :=
    fun fr => { fr with pc_idx := fr.pc_idx + INSTR_LEN.getD op 0 }
  if op = 1 then -- INSTR_FD
    let (o, sp) := stack_pop sp
    let o2 := scale_div o cfg.straight_steps_right 100
    let o1 := scale_div o cfg.straight_steps_left 100
    ({ s1 with frames := adv sp :: rest }, ev0 ++ [vm_event.drive o1 o2 (cmax o1 o2)])
  else if op = 2 then -- INSTR_BK
    let (o, sp) := stack_pop sp
    let o2 := scale_div o cfg.straight_steps_right 100
    let o1 := scale_div o cfg.straight_steps_left 100
    ({ s1 with frames := adv sp :: rest },
      ev0 ++ [vm_event.drive (-1 * o1) (-1 * o2) (cmax o1 o2)])
  else if op = 3 then -- INSTR_LT
    let (o, sp) := stack_pop sp
    let o2 := scale_div o cfg.turn_steps_right 180
    let o1 := scale_div o cfg.turn_steps_left 180
    ({ s1 with frames := adv sp :: rest }, ev0 ++ [vm_event.drive (-1 * o1) o2 (cmax o1 o2)])
  else if op = 4 then -- INSTR_RT
    let (o, sp) := stack_pop sp
    let o2 := scale_div o cfg.turn_steps_right 180
    let o1 := scale_div o cfg.turn_steps_left 180
    ({ s1 with frames := adv sp :: rest }, ev0 ++ [vm_event.drive o1 (-1 * o2) (cmax o1 o2)])
  else if op = 44 then -- INSTR_FDRAW
    let (o2, sp) := stack_pop sp
    let (o1, sp) := stack_pop sp
    ({ s1 with frames := adv sp :: rest }, ev0 ++ [vm_event.drive o1 o2 (cmax o1 o2)])
  else if op = 45 then -- INSTR_BKRAW
    let (o2, sp) := stack_pop sp
    let (o1, sp) := stack_pop sp
    ({ s1 with frames := adv sp :: rest },
      ev0 ++ [vm_event.drive (-1 * o1) (-1 * o2) (cmax o1 o2)])
  else if op = 46 then -- INSTR_LTRAW
    let (o2, sp) := stack_pop sp
    let (o1, sp) := stack_pop sp
    ({ s1 with frames := adv sp :: rest }, ev0 ++ [vm_event.drive (-1 * o1) o2 (cmax o1 o2)])
  else if op = 47 then -- INSTR_RTRAW
    let (o2, sp) := stack_pop sp
    let (o1, sp) := stack_pop sp
    ({ s1 with frames := adv sp :: rest }, ev0 ++ [vm_event.drive o1 (-1 * o2) (cmax o1 o2)])
  else if op = 5 then -- INSTR_PU
    ({ s1 with frames := adv sp :: rest }, ev0 ++ [vm_event.servo true, vm_event.pause])
  else if op = 6 then -- INSTR_PD
    ({ s1 with frames := adv sp :: rest }, ev0 ++ [vm_event.servo false, vm_event.pause])
  else if op = 7 then -- INSTR_IADD
    let (o2, sp) := stack_pop sp
    let (o1, sp) := stack_pop sp
    ({ s1 with frames := adv (stack_push sp (i32_clip (o1 + o2))).2 :: rest }, ev0)
  else if op = 8 then -- INSTR_ISUB
    let (o2, sp) := stack_pop sp
    let (o1, sp) := stack_pop sp
    ({ s1 with frames := adv (stack_push sp (i32_clip (o1 - o2))).2 :: rest }, ev0)
  else if op = 9 then -- INSTR_IMUL
    let (o2, sp) := stack_pop sp
    let (o1, sp) := stack_pop sp
    ({ s1 with frames := adv (stack_push sp (i32_clip (o1 * o2))).2 :: rest }, ev0)
  else if op = 10 then -- INSTR_IDIV (C division truncates; /0 is UB, modelled as 0)
    let (o2, sp) := stack_pop sp
    let (o1, sp) := stack_pop sp
    ({ s1 with frames := adv (stack_push sp (o1.tdiv o2)).2 :: rest }, ev0)
  else if op = 11 then -- INSTR_ICONST_0
    ({ s1 with frames := adv (stack_push sp 0).2 :: rest }, ev0)
  else if op = 12 then -- INSTR_ICONST_1
    ({ s1 with frames := adv (stack_push sp 1).2 :: rest }, ev0)
  else if op = 13 then -- INSTR_ICONST_45
    ({ s1 with frames := adv (stack_push sp 45).2 :: rest }, ev0)
  else if op = 14 then -- INSTR_ICONST_90
    ({ s1 with frames := adv (stack_push sp 90).2 :: rest }, ev0)
  else if op = 15 then -- INSTR_ICONST
    ({ s1 with frames := adv (stack_push sp (bytes_to_int32 f.code (sp.pc_idx + 1))).2 :: rest },
      ev0)
  else if op = 16 then -- INSTR_ILOAD_0
    if sp.locals ≠ [] then
      ({ s1 with frames := adv (stack_push sp (sp.locals.getD 0 0)).2 :: rest }, ev0)
    else (program_error s1, ev0)
  else if op = 17 then -- INSTR_ILOAD_1
    if sp.locals ≠ [] ∧ 1 ≤ sp.local_count then
      ({ s1 with frames := adv (stack_push sp (sp.locals.getD 1 0)).2 :: rest }, ev0)
    else (program_error s1, ev0)
  else if op = 18 then -- INSTR_ILOAD_2
    if sp.locals ≠ [] ∧ 2 ≤ sp.local_count then
      ({ s1 with frames := adv (stack_push sp (sp.locals.getD 2 0)).2 :: rest }, ev0)
    else (program_error s1, ev0)
  else if op = 19 then -- INSTR_ILOAD (index compared as uint32, C line 530)
    let o1 := bytes_to_int32 f.code (sp.pc_idx + 1)
    if sp.locals ≠ [] ∧ u32_of_i32 o1 ≤ sp.local_count then
      ({ s1 with frames := adv (stack_push sp (sp.locals.getD (u32_of_i32 o1) 0)).2 :: rest },
        ev0)
    else (program_error s1, ev0)
  else if op = 20 then -- INSTR_ISTORE_0
    if sp.locals ≠ [] then
      let (v, sp) := stack_pop sp
      ({ s1 with frames := adv { sp with locals := sp.locals.set 0 v } :: rest }, ev0)
    else (program_error s1, ev0)
  else if op = 21 then -- INSTR_ISTORE_1
    if sp.locals ≠ [] ∧ 1 ≤ sp.local_count then
      let (v, sp) := stack_pop sp
      ({ s1 with frames := adv { sp with locals := sp.locals.set 1 v } :: rest }, ev0)
    else (program_error s1, ev0)
  else if op = 22 then -- INSTR_ISTORE_2
    if sp.locals ≠ [] ∧ 2 ≤ sp.local_count then
      let (v, sp) := stack_pop sp
      ({ s1 with frames := adv { sp with locals := sp.locals.set 2 v } :: rest }, ev0)
    else (program_error s1, ev0)
  else if op = 23 then -- INSTR_ISTORE
    let o1 := bytes_to_int32 f.code (sp.pc_idx + 1)
    if sp.locals ≠ [] ∧ u32_of_i32 o1 ≤ sp.local_count then
      let (v, sp) := stack_pop sp
      ({ s1 with frames := adv { sp with locals := sp.locals.set (u32_of_i32 o1) v } :: rest },
        ev0)
    else (program_error s1, ev0)
  else if op = 24 then -- INSTR_GLOAD_0
    if s1.globals ≠ [] then
      ({ s1 with frames := adv (stack_push sp (s1.globals.getD 0 0)).2 :: rest }, ev0)
    else (program_error s1, ev0)
  else if op = 25 then -- INSTR_GLOAD_1
    if s1.globals ≠ [] ∧ 1 ≤ s1.globals.length then
      ({ s1 with frames := adv (stack_push sp (s1.globals.getD 1 0)).2 :: rest }, ev0)
    else (program_error s1, ev0)
  else if op = 26 then -- INSTR_GLOAD_2
    if s1.globals ≠ [] ∧ 2 ≤ s1.globals.length then
      ({ s1 with frames := adv (stack_push sp (s1.globals.getD 2 0)).2 :: rest }, ev0)
    else (program_error s1, ev0)
  else if op = 27 then -- INSTR_GLOAD
    let o1 := bytes_to_int32 f.code (sp.pc_idx + 1)
    if s1.globals ≠ [] ∧ u32_of_i32 o1 ≤ s1.globals.length then
      ({ s1 with frames := adv (stack_push sp (s1.globals.getD (u32_of_i32 o1) 0)).2 :: rest },
        ev0)
    else (program_error s1, ev0)
  else if op = 28 then -- INSTR_GSTORE_0
    if s1.globals ≠ [] then
      let (v, sp) := stack_pop sp
      ({ s1 with globals := s1.globals.set 0 v, frames := adv sp :: rest }, ev0)
    else (program_error s1, ev0)
  else if op = 29 then -- INSTR_GSTORE_1
    if s1.globals ≠ [] ∧ 1 ≤ s1.globals.length then
      let (v, sp) := stack_pop sp
      ({ s1 with globals := s1.globals.set 1 v, frames := adv sp :: rest }, ev0)
    else (program_error s1, ev0)
  else if op = 30 then -- INSTR_GSTORE_2
    if s1.globals ≠ [] ∧ 2 ≤ s1.globals.length then
      let (v, sp) := stack_pop sp
      ({ s1 with globals := s1.globals.set 2 v, frames := adv sp :: rest }, ev0)
    else (program_error s1, ev0)
  else if op = 31 then -- INSTR_GSTORE
    let o1 := bytes_to_int32 f.code (sp.pc_idx + 1)
    if s1.globals ≠ [] ∧ u32_of_i32 o1 ≤ s1.globals.length then
      let (v, sp) := stack_pop sp
      ({ s1 with globals := s1.globals.set (u32_of_i32 o1) v, frames := adv sp :: rest }, ev0)
    else (program_error s1, ev0)
  else if op = 32 then -- INSTR_ILT
    let (o2, sp) := stack_pop sp
    let (o1, sp) := stack_pop sp
    ({ s1 with frames := adv (stack_push sp (if o1 < o2 then 1 else 0)).2 :: rest }, ev0)
  else if op = 33 then -- INSTR_ILE
    let (o2, sp) := stack_pop sp
    let (o1, sp) := stack_pop sp
    ({ s1 with frames := adv (stack_push sp (if o1 ≤ o2 then 1 else 0)).2 :: rest }, ev0)
  else if op = 34 then -- INSTR_IGT
    let (o2, sp) := stack_pop sp
    let (o1, sp) := stack_pop sp
    ({ s1 with frames := adv (stack_push sp (if o1 > o2 then 1 else 0)).2 :: rest }, ev0)
  else if op = 35 then -- INSTR_IGE
    let (o2, sp) := stack_pop sp
    let (o1, sp) := stack_pop sp
    ({ s1 with frames := adv (stack_push sp (if o1 ≥ o2 then 1 else 0)).2 :: rest }, ev0)
  else if op = 36 then -- INSTR_IEQ
    let (o2, sp) := stack_pop sp
    let (o1, sp) := stack_pop sp
    ({ s1 with frames := adv (stack_push sp (if o1 = o2 then 1 else 0)).2 :: rest }, ev0)
  else if op = 37 then -- INSTR_INE
    let (o2, sp) := stack_pop sp
    let (o1, sp) := stack_pop sp
    ({ s1 with frames := adv (stack_push sp (if o1 ≠ o2 then 1 else 0)).2 :: rest }, ev0)
  else if op = 38 then -- INSTR_CALL
    let id := bytes_to_int32 f.code (sp.pc_idx + 1)
    if id ≤ 0 ∨ p.function_count ≤ u32_of_i32 id then (program_error s1, ev0)
    else
      let sp' := { sp with pc_idx := sp.pc_idx + INSTR_LEN.getD op 0 }
      let callee := p.functions.getD (u32_of_i32 id) fn_default
      let sf := create_stack_frame callee
      let (sp'', locals') := pop_args callee.argument_count sp' sf.locals
      ({ s1 with frames := { sf with locals := locals' } :: sp'' :: rest }, ev0)
  else if op = 39 then -- INSTR_RET
    match rest with
    | [] => (program_error s1, ev0)
    | caller :: r => ({ s1 with frames := caller :: r }, ev0)
  else if op = 40 then -- INSTR_STOP
    (stop_program s1, ev0 ++ [vm_event.drive 0 0 1])
  else if op = 41 then -- INSTR_BR (target compared as uint32)
    let addr := u32_of_i32 (bytes_to_int32 f.code (sp.pc_idx + 1))
    if f.length < addr then (program_error s1, ev0)
    else ({ s1 with frames := { sp with pc_idx := addr } :: rest }, ev0)
  else if op = 42 then -- INSTR_BRT
    let (v, sp) := stack_pop sp
    if v ≠ 0 then
      let addr := u32_of_i32 (bytes_to_int32 f.code (sp.pc_idx + 1))
      if f.length < addr then (program_error s1, ev0)
      else ({ s1 with frames := { sp with pc_idx := addr } :: rest }, ev0)
    else ({ s1 with frames := adv sp :: rest }, ev0)
  else if op = 43 then -- INSTR_BRF
    let (v, sp) := stack_pop sp
    if v = 0 then
      let addr := u32_of_i32 (bytes_to_int32 f.code (sp.pc_idx + 1))
      if f.length < addr then (program_error s1, ev0)
      else ({ s1 with frames := { sp with pc_idx := addr } :: rest }, ev0)
    else ({ s1 with frames := adv sp :: rest }, ev0)
  else -- unknown instruction
    (program_error s1, ev0)

/-- vm_execute_task of vm.c: the task body that executes one instruction.
If the status is not RUNNING or no program is loaded, it frees any leftover
program state (the C only calls free_program when program != NULL) and goes
IDLE.  A RUNNING state with no current frame would dereference NULL in C and
is returned unchanged (unreachable for states produced by run_program). -/
def vm_execute_task (cfg : vm_config) (s : vm_state) : vm_state × List vm_event :=
  if s.program_status ≠ RUNNING ∨ s.program = none then
    ({ (if s.program.isSome then free_program s else s) with program_status := IDLE }, [])
  else
    match s.program, s.frames with
    | some p, sp :: rest => exec_body cfg s p sp rest
    | _, _ => (s, [])

/-! ### run_program (vm.c lines 171-252) -/

/-- The per-function validation checks of run_program (vm.c lines 195-220):
argument_count, local_count ≤ MAX_VAR_COUNT, stack_size ≤ MAX_STACK_SIZE and
0 < length ≤ MAX_FUNC_LEN. -/
def function_ok (f : function_t) : Bool :=
  decide (f.argument_count ≤ MAX_VAR_COUNT) && decide (f.local_count ≤ MAX_VAR_COUNT) &&
  decide (f.stack_size ≤ MAX_STACK_SIZE) && decide (f.length ≤ MAX_FUNC_LEN) &&
  decide (f.length ≠ 0)

/-- The validation loop of run_program over functions 0..function_count-1. -/
def functions_ok (p : program_t) : Bool :=
  (List.range p.function_count).all (fun ii => function_ok (p.functions.getD ii fn_default))

/-- True exactly when run_program's load-time validation rejects the program:
NULL program, too many globals, function_count outside [1, MAX_FUNC_COUNT],
or some function violating the per-function limits. -/
def prog_rejected (prog : Option program_t) : Bool :=
  match prog with
  | none => true
  | some p =>
      decide (MAX_VAR_COUNT < p.global_count) || decide (MAX_FUNC_COUNT < p.function_count) ||
      decide (p.function_count = 0) || !functions_ok p

/-- run_program of vm.c.  Mirrors the source order: a RUNNING program is
stopped FIRST (stop_program; the free of its memory is performed by the
already-posted vm_execute_task, not here), the status is forced to IDLE,
then the validation checks run, each returning false on failure; only when
all pass is the old program freed and the new one installed with a frame
for functions[0], freshly allocated globals (os_malloc leaves them
uninitialised; modelled as zeros) and status RUNNING.  The C function falls
off its end on the success path (no return statement), so the Bool returned
there is unspecified in C; the model returns true and no claim relies on it. -/
def run_program (s : vm_state) (prog : Option program_t) : Bool × vm_state :=
  let s := if s.program_status = RUNNING then stop_program s else s
  let s := { s with program_status := IDLE }
  match prog with
  | none => (false, s)
  | some p =>
      if MAX_VAR_COUNT < p.global_count then (false, s)
      else if MAX_FUNC_COUNT < p.function_count then (false, s)
      else if p.function_count = 0 then (false, s)
      else if !functions_ok p then (false, s)
      else
        let s := free_program s
        let fr := create_stack_frame (p.functions.getD 0 fn_default)
        let s := { s with program := some p, frames := [fr] }
        let s := { s with globals := List.replicate p.global_count 0 }
        (true, { s with program_status := RUNNING })

/-! ### motors.c data model -/

/-- tick_data_t of motors.c: per-motor DDA bookkeeping.  `direction` is
declared uint8_t in C and assigned 1 or -1; storing -1 yields the byte 255,
which converts back to the int8_t -1 when passed to step_motors, so the
round trip is modelled directly as the Int 1 or -1. -/
structure tick_data_t where
  steps : Int
  d : Int
  step : Int
  last_step : Int
  direction : Int
deriving DecidableEq, Repr

/-- phase_data_t of motors.c.  last_position is the C float, modelled in ℚ. -/
structure phase_data_t where
  accel_limit : Nat
  accel_duration : Nat
  cruise_duration : Nat
  phase_tick : Nat
  last_position : ℚ
deriving DecidableEq, Repr

/-- phases_t of motors.c. -/
inductive phases_t where
  | STATIONARY
  | ACCEL_1
  | ACCEL_2
  | CRUISING
  | DECEL_1
  | DECEL_2
deriving DecidableEq, Repr

open phases_t

/-- The module-level mutable state of motors.c used by drive_motors and
motor_timer_cb: the two stepper_data entries, phase_data, current_phase,
tick/step totals, the acceleration flag, whether a completion callback is
registered (motor_cb != NULL), the static idle_count of motor_timer_cb, and
the two current_step sequence indices used by step_motors. -/
structure motors_state where
  stepper0 : tick_data_t
  stepper1 : tick_data_t
  phase_data : phase_data_t
  current_phase : phases_t
  current_tick : Nat
  total_ticks : Nat
  total_steps : Nat
  acceleration_active : Bool
  motor_cb : Bool
  idle_count : Nat
  current_step0 : Nat
  current_step1 : Nat
deriving DecidableEq, Repr

/-- MAX_IDLE_COUNT of motors.c. -/
def MAX_IDLE_COUNT : Nat := 5000

/-- STEPPER_1_MASK of motors.c: BIT2|BIT15|BIT12|BIT14. -/
def STEPPER_1_MASK : Nat := 4 + 32768 + 4096 + 16384

/-- STEPPER_2_MASK of motors.c: BIT3|BIT5|BIT4|BIT0. -/
def STEPPER_2_MASK : Nat := 8 + 32 + 16 + 1

/-- step_values[0] of motors.c: the 8-entry half-stepping GPIO pattern for
stepper 1 (BIT2, BIT2|BIT15, BIT15, BIT15|BIT12, BIT12, BIT12|BIT14, BIT14,
BIT14|BIT2). -/
def step_values0 : List Nat := [4, 32772, 32768, 36864, 4096, 20480, 16384, 16388]

/-- step_values[1] of motors.c: the pattern table for stepper 2 (BIT3,
BIT3|BIT5, BIT5, BIT5|BIT4, BIT4, BIT4|BIT0, BIT0, BIT0|BIT3). -/
def step_values1 : List Nat := [8, 40, 32, 48, 16, 17, 1, 9]

/-- step_motors of motors.c.  Takes the two step commands (sign selects the
direction, zero means no step) and the two current sequence indices; returns
the updated indices and, unless both commands are zero, the single combined
gpio_output_set write (set_mask, clear_mask, enable_mask).  The C index
update `(current_step + step + 8) % 8` with step = (cmd < 0) ? 1 : -1 is
the Nat expression below; `mask & ~pattern` is mask ^^^ (mask &&& pattern). -/
def step_motors (stepper1 stepper2 : Int) (cs1 cs2 : Nat) :
    (Nat × Nat) × Option (Nat × Nat × Nat) :=
  if stepper1 = 0 ∧ stepper2 = 0 then ((cs1, cs2), none)
  else
    let r1 :=
      if stepper1 ≠ 0 then
        let cs := (cs1 + (if stepper1 < 0 then 9 else 7)) % 8
        let v := step_values0.getD cs 0
        (cs, v, STEPPER_1_MASK ^^^ (STEPPER_1_MASK &&& v), STEPPER_1_MASK)
      else (cs1, 0, 0, 0)
    let r2 :=
      if stepper2 ≠ 0 then
        let cs := (cs2 + (if stepper2 < 0 then 9 else 7)) % 8
        let v := step_values1.getD cs 0
        (cs, v, STEPPER_2_MASK ^^^ (STEPPER_2_MASK &&& v), STEPPER_2_MASK)
      else (cs2, 0, 0, 0)
    ((r1.1, r2.1),
      some (r1.2.1 ||| r2.2.1, r1.2.2.1 ||| r2.2.2.1, r1.2.2.2 ||| r2.2.2.2))

/-- The gpio_output_set arguments issued by stop_motors of motors.c:
clears (de-energizes) every coil line of both steppers. -/
def stop_motors_gpio : Nat × Nat × Nat :=
  (0, STEPPER_1_MASK ||| STEPPER_2_MASK, STEPPER_1_MASK ||| STEPPER_2_MASK)

/-! ### motors.c acceleration profile -/

/-- The (uint32_t) cast motors.c applies to the float m_value: truncation of
a non-negative value, i.e. the floor. -/
def u32_floor (q : ℚ) : Nat := (⌊q⌋).toNat

/-- The half-profile displacement formula evaluated on a candidate tick m by
the bisection search of drive_motors (motors.c lines 343-362): the cubic
ramp m³/(6·a_d²) while m ≤ a_d, and beyond that the blended curve
-(m-a_d)³/(6·a_d²) + (m-a_d)²/(2·a_d) + (m-a_d)/2 + crossover with
crossover = a_d³/(6·a_d²).  The C computes this in single-precision float;
it is modelled exactly over ℚ (the uint32 products 6·a_d·a_d in the
denominators are taken unwrapped, which matches C whenever 6·a_d² < 2³²). -/
def half_profile (a_d : Nat) (m : Nat) : ℚ :=
  if m ≤ a_d then ((m : ℚ)) ^ 3 / (6 * (a_d : ℚ) ^ 2)
  else
    let mv : ℚ := (m : ℚ) - (a_d : ℚ);
    -(mv ^ 3 / (6 * (a_d : ℚ) ^ 2)) + mv ^ 2 / (2 * (a_d : ℚ)) + mv / 2 +
      (a_d : ℚ) ^ 3 / (6 * (a_d : ℚ) ^ 2)

/-- The binary-search loop of drive_motors (motors.c lines 349-370), written
with explicit fuel so it computes by reduction.  pred mid is the `else`
branch test (the truncated displacement has reached the target): while
left < right the code takes mid = (left+right)/2 and either narrows to
[left, mid] when pred holds or to [mid+1, right] when it fails. -/
def bisect_loop (pred : Nat → Bool) : Nat → Nat → Nat → Nat
  | 0, left, _ => left
  | fuel + 1, left, right =>
      if left < right then
        let mid := (left + right) / 2
        if pred mid then bisect_loop pred fuel left mid
        else bisect_loop pred fuel (mid + 1) right
      else left

/-- The accel_limit computed by the short-move bisection of drive_motors:
searching mid in [0, configured acceleration duration] for the first value
whose truncated half-profile displacement reaches target = steps/2, with
a_d = configured/2. -/
def accel_limit_calc (cfg_accel steps : Nat) : Nat :=
  bisect_loop
    (fun mid => decide (steps / 2 ≤ u32_floor (half_profile (cfg_accel / 2) mid)))
    (cfg_accel + 1) 0 cfg_accel

/-! ### drive_motors (motors.c lines 308-405) -/

/-- The DDA body run for one motor on each logical step advance
(motors.c lines 532-546): a motor with steps <= 0 is skipped entirely;
otherwise it emits a physical step exactly when `step` differs from
`last_step` (recording it), then increments `step` and subtracts
2·total_steps from d when d > 0, and finally always adds 2·steps to d.
Returns the updated tick data and whether a physical step was emitted. -/
def dda_advance (total_steps : Nat) (t : tick_data_t) : tick_data_t × Bool :=
  if t.steps ≤ 0 then (t, false)
  else
    let fired := t.step ≠ t.last_step
    let t := if fired then { t with last_step := t.step } else t
    let t :=
      if 0 < t.d then { t with step := t.step + 1, d := t.d - 2 * (total_steps : Int) }
      else t
    ({ t with d := t.d + 2 * t.steps }, fired)

/-- drive_motors of motors.c.  cfg_accel is the get_acceleration_duration()
configuration read; cb records whether a completion callback was supplied.
With both step counts zero the function returns right after clearing the
totals and storing the callback, before any phase or stepper setup.  In the
accelerated branch, cruise_duration is first set to steps - 2·(cfg/2) (a
uint32 expression that wraps below zero in C; it is overwritten before use
in exactly the cases where it would wrap, and Nat truncation is used here),
and when accel_duration > steps/2 the bisection replaces accel_limit and
cruise_duration becomes steps - 2·(steps/2).  phase_data.last_position is
left over from the previous movement (the C never initialises it here). -/
def drive_motors (cfg_accel : Nat) (left_steps right_steps : Int)
    (tick_count : Nat) (accelerate : Bool) (cb : Bool) (s : motors_state) : motors_state :=
  let s := { s with total_ticks := 0, total_steps := 0, current_tick := 0,
                    current_phase := if accelerate then ACCEL_1 else CRUISING,
                    acceleration_active := accelerate, motor_cb := cb }
  if left_steps = 0 ∧ right_steps = 0 then s
  else
    let steps : Nat := max left_steps.natAbs right_steps.natAbs
    let pd : phase_data_t :=
      if accelerate then
        let a_d := cfg_accel / 2
        let pd0 : phase_data_t :=
          { accel_limit := cfg_accel, accel_duration := a_d,
            cruise_duration := steps - 2 * a_d, phase_tick := 0,
            last_position := s.phase_data.last_position }
        if steps / 2 < a_d then
          { pd0 with accel_limit := accel_limit_calc cfg_accel steps,
                     cruise_duration := steps - 2 * (steps / 2) }
        else pd0
      else
        { accel_limit := 0, accel_duration := 0, cruise_duration := tick_count,
          phase_tick := 0, last_position := s.phase_data.last_position }
    let st0 : tick_data_t :=
      { steps := (left_steps.natAbs : Int),
        d := 2 * (left_steps.natAbs : Int) - (if accelerate then (steps : Int) else (tick_count : Int)),
        step := 0, last_step := -1, direction := if 0 < left_steps then 1 else -1 }
    let st1 : tick_data_t :=
      { steps := (right_steps.natAbs : Int),
        d := 2 * (right_steps.natAbs : Int) - (if accelerate then (steps : Int) else (tick_count : Int)),
        step := 0, last_step := -1, direction := if 0 < right_steps then 1 else -1 }
    { s with phase_data := pd, stepper0 := st0, stepper1 := st1,
             total_steps := steps,
             total_ticks := if accelerate then 2 * pd.accel_limit + pd.cruise_duration
                            else tick_count }

/-! ### motor_timer_cb (motors.c lines 410-596) -/

/-- The observable outcome of one motor_timer_cb invocation: the successor
state, whether stop_motors was called (coils de-energized), whether each
motor was commanded a physical step, whether the completion callback was
invoked, and the gpio_output_set write (if any) issued this tick. -/
structure tick_result where
  state : motors_state
  stopped_motors : Bool
  left_stepped : Bool
  right_stepped : Bool
  cb_invoked : Bool
  gpio : Option (Nat × Nat × Nat)
deriving DecidableEq, Repr

/-- motor_timer_cb of motors.c.  With no work queued (total_ticks == 0) it
only counts idle ticks, de-energizing the coils when the count exceeds
MAX_IDLE_COUNT (`++idle_count > MAX_IDLE_COUNT`).  Otherwise it advances the
phase tick, evaluates the current phase's position curve (the C switch; the
STATIONARY/default fall-through leaves the C `position` float uninitialised
and is modelled as last_position, producing no step), performs one logical
step advance through the per-motor DDA whenever the position has grown by a
full unit, applies the phase-boundary bookkeeping when a phase ends, and on
completion clears the totals and invokes the callback.  Nat comparisons
replace the C float comparisons `tick >= n` since tick is the integral
phase_tick; positions stay in ℚ. -/
def motor_timer_cb (s : motors_state) : tick_result :=
  if s.total_ticks = 0 then
    if MAX_IDLE_COUNT < s.idle_count + 1 then
      { state := { s with idle_count := 0 }, stopped_motors := true,
        left_stepped := false, right_stepped := false, cb_invoked := false,
        gpio := some stop_motors_gpio }
    else
      { state := { s with idle_count := s.idle_count + 1 }, stopped_motors := false,
        left_stepped := false, right_stepped := false, cb_invoked := false, gpio := none }
  else
    let s := { s with idle_count := 0 }
    let tickN : Nat := s.phase_data.phase_tick + 1
    let tick : ℚ := (tickN : ℚ)
    let a_d := s.phase_data.accel_duration
    let s := { s with phase_data := { s.phase_data with phase_tick := tickN },
                      current_tick := s.current_tick + 1 }
    let sw : ℚ × phases_t × Bool × Bool :=
      match s.current_phase with
      | ACCEL_1 =>
          let pos := tick ^ 3 / (6 * (a_d : ℚ) ^ 2)
          if s.phase_data.accel_limit ≤ tickN then
            (pos, if 0 < s.phase_data.cruise_duration then CRUISING else DECEL_1, true, false)
          else if a_d ≤ tickN then (pos, ACCEL_2, true, false)
          else (pos, ACCEL_1, false, false)
      | ACCEL_2 =>
          let pos := -(tick ^ 3 / (6 * (a_d : ℚ) ^ 2)) + tick ^ 2 / (2 * (a_d : ℚ)) + tick / 2
          if s.phase_data.accel_limit ≤ tickN + a_d then
            (pos, if 0 < s.phase_data.cruise_duration then CRUISING else DECEL_1, true, false)
          else if s.phase_data.accel_limit ≤ tickN then (pos, CRUISING, true, false)
          else (pos, ACCEL_2, false, false)
      | CRUISING =>
          let pos := s.phase_data.last_position + 1
          if s.phase_data.cruise_duration ≤ tickN then
            if s.acceleration_active then (pos, DECEL_1, true, false)
            else (pos, STATIONARY, true, true)
          else (pos, CRUISING, false, false)
      | DECEL_1 =>
          let pos := -(tick ^ 3 / (6 * (a_d : ℚ) ^ 2)) + tick
          if a_d ≤ tickN then (pos, DECEL_2, true, false)
          else (pos, DECEL_1, false, false)
      | DECEL_2 =>
          let pos := tick ^ 3 / (6 * (a_d : ℚ) ^ 2) - tick ^ 2 / (2 * (a_d : ℚ)) + tick / 2
          if a_d ≤ tickN then (pos, STATIONARY, true, true)
          else (pos, DECEL_2, false, false)
      | STATIONARY => (s.phase_data.last_position, STATIONARY, false, false)
    let position := sw.1
    let reset := sw.2.2.1
    let complete := sw.2.2.2
    let s := { s with current_phase := sw.2.1 }
    let stepRes : motors_state × Bool × Bool × Option (Nat × Nat × Nat) :=
      if 1 ≤ position - s.phase_data.last_position then
        let s := { s with phase_data :=
          { s.phase_data with last_position := s.phase_data.last_position + 1 } }
        let (st0, fired0) := dda_advance s.total_steps s.stepper0
        let (st1, fired1) := dda_advance s.total_steps s.stepper1
        let s := { s with stepper0 := st0, stepper1 := st1 }
        if fired0 ∨ fired1 then
          let r := step_motors (if fired0 then st0.direction else 0)
              (if fired1 then st1.direction else 0) s.current_step0 s.current_step1
          ({ s with current_step0 := r.1.1, current_step1 := r.1.2 }, fired0, fired1, r.2)
        else (s, fired0, fired1, none)
      else (s, false, false, none)
    let s := stepRes.1
    let s :=
      if reset then
        let pd : phase_data_t := { s.phase_data with phase_tick := 0 }
        let r : phases_t × phase_data_t :=
          if pd.accel_limit ≠ 2 * pd.accel_duration then
            if s.current_phase = DECEL_1 then
              if pd.accel_limit ≤ pd.accel_duration then
                let pt : Nat := pd.accel_duration - pd.accel_limit
                let c : ℚ := (pt : ℚ) ^ 3 / (6 * (a_d : ℚ) ^ 2) -
                  (pt : ℚ) ^ 2 / (2 * (a_d : ℚ)) + (pt : ℚ) / 2
                (DECEL_2, { pd with phase_tick := pt, last_position := pd.last_position + c })
              else
                let pt : Nat := 2 * pd.accel_duration - pd.accel_limit
                let c : ℚ := -((pt : ℚ) ^ 3 / (6 * (a_d : ℚ) ^ 2)) + (pt : ℚ)
                (DECEL_1, { pd with phase_tick := pt, last_position := pd.last_position + c })
            else if s.current_phase = DECEL_2 ∧ pd.accel_limit < pd.accel_duration then
              (DECEL_2, { pd with phase_tick := pd.accel_duration - pd.accel_limit })
            else (s.current_phase, pd)
          else (s.current_phase, pd)
        { s with current_phase := r.1,
                 phase_data := { r.2 with last_position := r.2.last_position - position } }
      else s
    if complete then
      { state := { s with total_ticks := 0, total_steps := 0 },
        stopped_motors := false, left_stepped := stepRes.2.1,
        right_stepped := stepRes.2.2.1, cb_invoked := s.motor_cb, gpio := stepRes.2.2.2 }
    else
      { state := s, stopped_motors := false, left_stepped := stepRes.2.1,
        right_stepped := stepRes.2.2.1, cb_invoked := false, gpio := stepRes.2.2.2 }

/-- A clean motors state: everything zeroed, phase STATIONARY, no callback
(the state after init_motors' synchronisation run has completed and the
counters ran down, with sequence indices back at 0). -/
def motors_init : motors_state :=
  { stepper0 := ⟨0, 0, 0, 0, 0⟩, stepper1 := ⟨0, 0, 0, 0, 0⟩,
    phase_data := ⟨0, 0, 0, 0, 0⟩, current_phase := STATIONARY,
    current_tick := 0, total_ticks := 0, total_steps := 0,
    acceleration_active := false, motor_cb := false, idle_count := 0,
    current_step0 := 0, current_step1 := 0 }

/-- Tallies of the observable events over a run of motor timer ticks. -/
structure tick_tally where
  left_count : Nat
  right_count : Nat
  cb_count : Nat
  stop_count : Nat
deriving DecidableEq, Repr

/-- Runs n motor timer ticks from a state, returning the final state and the
tallies of physical steps per motor, callback invocations and stop_motors
calls. -/
def run_count : Nat → motors_state → motors_state × tick_tally
  | 0, s => (s, ⟨0, 0, 0, 0⟩)
  | n + 1, s =>
      let r := motor_timer_cb s
      let (s', t) := run_count n r.state
      (s', ⟨(if r.left_stepped then 1 else 0) + t.left_count,
            (if r.right_stepped then 1 else 0) + t.right_count,
            (if r.cb_invoked then 1 else 0) + t.cb_count,
            (if r.stopped_motors then 1 else 0) + t.stop_count⟩)

/-! ### Servo sequencer (motors.c lines 154-235) -/

/-- The servo-related mutable state of motors.c: the current angle, the
destination, the step counter and per-step increment, whether a completion
callback is registered, and whether the servo timer is armed.  Angles and
the step size are int8_t values (modelled as Int, wrapped by int8_of
wherever C stores an intermediate result into them). -/
structure servo_state where
  servo_angle : Int
  destination_angle : Int
  servo_step : Nat
  servo_step_size : Int
  servo_cb : Bool
  timer_on : Bool
deriving DecidableEq, Repr

/-- The clamp of set_servo: positions below -90 become -90, above 90
become 90. -/
def clamp90 (x : Int) : Int :=
  if x < -90 then -90 else if 90 < x then 90 else x

/-- set_servo of motors.c.  cfg_steps is get_servo_move_steps(); a zero
configuration is replaced by 1 for the step-size computation (the uint8
`if (steps <= 0) steps = 1`).  The per-step size is the C int expression
(destination - current) / steps truncated, then stored into the int8_t
servo_step_size (wrapped by int8_of).  Arms the servo timer. -/
def set_servo (cfg_steps : Nat) (position : Int) (cb : Bool) (s : servo_state) : servo_state :=
  let position := clamp90 position
  let steps : Nat := if cfg_steps = 0 then 1 else cfg_steps
  { s with destination_angle := position,
           servo_step_size := int8_of ((position - s.servo_angle).tdiv (steps : Int)),
           servo_step := 0, servo_cb := cb, timer_on := true }

/-- servo_timer_cb of motors.c: adds the step size to the angle (an int8_t
store), counts the step, and once servo_step reaches the configured step
count snaps the angle exactly to the destination, disarms the timer and
reports that the completion callback fires (when one is registered).  The
PWM duty-cycle write derived from the angle is an external effect.  A
disarmed timer does not tick (modelled by returning the state unchanged). -/
def servo_timer_cb (cfg_steps : Nat) (s : servo_state) : servo_state × Bool :=
  if s.timer_on = false then (s, false)
  else
    let angle := int8_of (s.servo_angle + s.servo_step_size)
    let step := s.servo_step + 1
    let angle := if cfg_steps ≤ step then s.destination_angle else angle
    if cfg_steps ≤ step then
      ({ s with servo_angle := angle, servo_step := step, timer_on := false }, s.servo_cb)
    else
      ({ s with servo_angle := angle, servo_step := step }, false)

/-- Runs n servo timer ticks. -/
def servo_run (cfg_steps : Nat) : Nat → servo_state → servo_state
  | 0, s => s
  | n + 1, s => servo_run cfg_steps n (servo_timer_cb cfg_steps s).1

/-! ### Concrete example programs and states used by witnesses and
counterexamples -/

/-- A configuration with the default step scales of config.c. -/
def vm_cfg_default : vm_config := ⟨1729, 1729, 2052, 2052⟩

/-- Example main function: a single CALL 1 instruction. -/
def ex_fn_main : function_t := ⟨0, 0, 0, 3, 5, [38, 0, 0, 0, 1]⟩

/-- Example callee: 3 arguments, 2 further locals, body RET. -/
def ex_fn_callee : function_t := ⟨1, 3, 2, 4, 1, [39]⟩

/-- Example two-function program for the CALL/RET round trip. -/
def ex_prog_call : program_t := ⟨0, 2, [ex_fn_main, ex_fn_callee]⟩

/-- Running state at the CALL of ex_prog_call, with v1=1, v2=2, v3=3 pushed
(stack list is top first, so 3 is the most recently pushed). -/
def ex_state_call : vm_state :=
  ⟨RUNNING, some ex_prog_call, [⟨0, 0, 0, [], 3, [3, 2, 1]⟩], []⟩

/-- Five-function program whose main issues CALL 999 (bytes 0,0,3,231). -/
def ex_prog_badcall : program_t :=
  ⟨0, 5, [⟨0, 0, 0, 1, 5, [38, 0, 0, 3, 231]⟩, ⟨1, 0, 0, 1, 1, [39]⟩,
    ⟨2, 0, 0, 1, 1, [39]⟩, ⟨3, 0, 0, 1, 1, [39]⟩, ⟨4, 0, 0, 1, 1, [39]⟩]⟩

/-- Running state about to execute the CALL 999 of ex_prog_badcall. -/
def ex_state_badcall : vm_state :=
  ⟨RUNNING, some ex_prog_badcall, [⟨0, 0, 0, [], 1, []⟩], []⟩

/-- A minimal valid program (one global, main = STOP). -/
def ex_prog_ok : program_t := ⟨1, 1, [⟨0, 0, 0, 1, 1, [40]⟩]⟩

/-- A program rejected by validation: 33 globals with MAX_VAR_COUNT = 32. -/
def ex_prog_toomany : program_t := ⟨33, 1, [⟨0, 0, 0, 1, 1, [40]⟩]⟩

/-- A running state (executing ex_prog_ok) used to exhibit what a rejected
load does to the program already running. -/
def ex_state_running : vm_state :=
  ⟨RUNNING, some ex_prog_ok, [⟨0, 0, 0, [], 1, [9]⟩], [4]⟩

/-- Program whose main pushes ICONST_0 with operand-stack capacity 1. -/
def ex_prog_push : program_t := ⟨0, 1, [⟨0, 0, 0, 1, 2, [11, 40]⟩]⟩

/-- Running state at the ICONST_0 of ex_prog_push with the operand stack
already full (one entry, capacity one). -/
def ex_state_full : vm_state :=
  ⟨RUNNING, some ex_prog_push, [⟨0, 0, 0, [], 1, [7]⟩], []⟩

/-- Program whose main executes IADD with nothing on the operand stack. -/
def ex_prog_iadd : program_t := ⟨0, 1, [⟨0, 0, 0, 2, 1, [7]⟩]⟩

/-- Running state at the IADD of ex_prog_iadd with an empty operand stack. -/
def ex_state_underflow : vm_state :=
  ⟨RUNNING, some ex_prog_iadd, [⟨0, 0, 0, [], 2, []⟩], []⟩

/-- One-function program whose single code byte is the opcode of the 5-byte
ICONST instruction, with length 1: the instruction extends 4 bytes past the
end of the function's code. -/
def ex_prog_oob : program_t := ⟨0, 1, [⟨0, 0, 0, 1, 1, [15]⟩]⟩

/-- The current frame at that ICONST (function 0, index 0). -/
def ex_frame_oob : stack_frame_t := ⟨0, 0, 0, [], 1, []⟩

/-- Running state about to dispatch the out-of-bounds ICONST. -/
def ex_state_oob : vm_state := ⟨RUNNING, some ex_prog_oob, [ex_frame_oob], []⟩

/-- A servo state resting at +90 degrees with the timer off. -/
def ex_servo_rest : servo_state := ⟨90, 90, 0, 0, false, false⟩

/-! ### Helper lemmas -/

/-- Dispatch reduction: in a RUNNING state with a program and a current
frame, vm_execute_task runs exec_body. -/
theorem vm_execute_task_eq (cfg : vm_config) (s : vm_state) (p : program_t)
    (sp : stack_frame_t) (rest : List stack_frame_t)
    (hs : s.program_status = RUNNING) (hp : s.program = some p)
    (hf : s.frames = sp :: rest) :
    vm_execute_task cfg s = exec_body cfg s p sp rest := by
  unfold vm_execute_task
  rw [hp, hs, hf]
  simp

/-! ### Claim C2 -/

/-- Claim C2, counterexample.  The claim says pushing onto a full operand
stack and popping from an empty one are surfaced as an immediate program
fault (status transitions to Error and execution halts).  In the code they
are not: executing ICONST_0 with the operand stack full (ex_state_full) and
IADD with the operand stack empty (ex_state_underflow) both leave the
program RUNNING, never ERROR; the push is silently dropped and the pops
return sentinel zeros, exactly as the stack_pop comment in vm.c documents. -/
theorem stack_fault_claim_cex :
    (vm_execute_task vm_cfg_default ex_state_full).1.program_status = RUNNING ∧
    (vm_execute_task vm_cfg_default ex_state_full).1.program_status ≠ ERROR ∧
    (vm_execute_task vm_cfg_default ex_state_underflow).1.program_status = RUNNING ∧
    (vm_execute_task vm_cfg_default ex_state_underflow).1.program_status ≠ ERROR := by
  decide

/-- Claim C2, amended.  stack_push on a full operand stack returns false and
drops the value, leaving the frame unchanged (the dispatch loop ignores the
returned Bool); stack_pop on an empty stack returns the sentinel 0 and
leaves the frame unchanged; neither dispatching a push instruction
(ICONST_0) on a full stack nor a popping instruction (IADD) on an empty
stack changes the program status: execution silently continues with the
program still RUNNING. -/
theorem stack_discipline_amended :
    (∀ (sp : stack_frame_t) (v : Int), sp.max_stack_size ≤ sp.stack.length →
      stack_push sp v = (false, sp)) ∧
    (∀ sp : stack_frame_t, sp.stack = [] → stack_pop sp = (0, sp)) ∧
    (∀ (cfg : vm_config) (s : vm_state) (p : program_t) (sp : stack_frame_t)
      (rest : List stack_frame_t), s.program_status = RUNNING → s.program = some p →
      s.frames = sp :: rest → fell_off_check p sp = false →
      (p.functions.getD sp.pc_func fn_default).code.getD sp.pc_idx 0 = 11 →
      sp.max_stack_size ≤ sp.stack.length →
      (vm_execute_task cfg s).1 =
        { s with frames := { sp with pc_idx := sp.pc_idx + 1 } :: rest } ∧
      (vm_execute_task cfg s).1.program_status = RUNNING) ∧
    (∀ (cfg : vm_config) (s : vm_state) (p : program_t) (sp : stack_frame_t)
      (rest : List stack_frame_t), s.program_status = RUNNING → s.program = some p →
      s.frames = sp :: rest → fell_off_check p sp = false →
      (p.functions.getD sp.pc_func fn_default).code.getD sp.pc_idx 0 = 7 →
      sp.stack = [] →
      (vm_execute_task cfg s).1 =
        { s with frames :=
          { (stack_push sp 0).2 with pc_idx := sp.pc_idx + 1 } :: rest } ∧
      (vm_execute_task cfg s).1.program_status = RUNNING) := by
  refine ⟨?_, ?_, ?_, ?_⟩
  · intro sp v h
    simp [stack_push, h]
  · intro sp h
    simp [stack_pop, h]
  · intro cfg s p sp rest hs hp hf hbc hop hfull
    rw [vm_execute_task_eq cfg s p sp rest hs hp hf]
    constructor
    · simp only [exec_body, hbc, hop]
      simp [stack_push, hfull, INSTR_LEN]
    · simp only [exec_body, hbc, hop]
      simp [stack_push, hfull, INSTR_LEN, hs]
  · intro cfg s p sp rest hs hp hf hbc hop hempty
    rw [vm_execute_task_eq cfg s p sp rest hs hp hf]
    have hz : i32_clip 0 = 0 := rfl
    constructor
    · simp only [exec_body, hbc, hop]
      simp [stack_pop, hempty, INSTR_LEN, hz, stack_push]
      split <;> rfl
    · simp only [exec_body, hbc, hop]
      simp [stack_pop, hempty, INSTR_LEN, hz, hs, stack_push]

/-- Claim C2, witness for the amended theorem at concrete inputs: the frame
of ex_state_full really is full, pushing onto it fails without a fault, the
empty frame pops the sentinel 0, and both dispatches keep the status
RUNNING. -/
theorem stack_discipline_amended_witness :
    stack_push ⟨0, 0, 0, [], 1, [7]⟩ 0 = (false, ⟨0, 0, 0, [], 1, [7]⟩) ∧
    stack_pop ⟨0, 0, 0, [], 2, []⟩ = (0, ⟨0, 0, 0, [], 2, []⟩) ∧
    (vm_execute_task vm_cfg_default ex_state_full).1.program_status = RUNNING ∧
    (vm_execute_task vm_cfg_default ex_state_underflow).1.program_status = RUNNING := by
  refine ⟨stack_discipline_amended.1 ⟨0, 0, 0, [], 1, [7]⟩ 0 (by decide),
    stack_discipline_amended.2.1 ⟨0, 0, 0, [], 2, []⟩ rfl, ?_, ?_⟩
  · exact (stack_discipline_amended.2.2.1 vm_cfg_default ex_state_full ex_prog_push
      ⟨0, 0, 0, [], 1, [7]⟩ [] rfl rfl rfl (by decide) (by decide) (by decide)).2
  · exact (stack_discipline_amended.2.2.2 vm_cfg_default ex_state_underflow ex_prog_iadd
      ⟨0, 0, 0, [], 2, []⟩ [] rfl rfl rfl (by decide) (by decide) rfl).2

/-! ### Claim C6 -/

/-- Claim C6, code bug.  The claim (and the comment and log message in the
source) say the dispatcher checks that the current instruction plus its
fixed encoded length, from the per-opcode table, fits in the function, and
on violation stops as a fault without executing.  The source instead indexes
INSTR_LEN by the current FUNCTION ID (vm.c line 337) and does not return
after stop_program.  At ex_state_oob (function 0 of length 1 whose only
byte is the 5-byte ICONST opcode), the per-opcode bound is violated
(0 + INSTR_LEN[15] = 5 > 1), yet the code's check passes
(0 + INSTR_LEN[0] = 0 ≤ 1), no fault occurs, and the out-of-bounds
instruction is executed: the program stays RUNNING with the program counter
advanced past the end of the function and a value read past the code pushed. -/
theorem bounds_check_code_bug :
    fell_off_check ex_prog_oob ex_frame_oob = false ∧
    (ex_prog_oob.functions.getD ex_frame_oob.pc_func fn_default).length <
      ex_frame_oob.pc_idx + INSTR_LEN.getD
        ((ex_prog_oob.functions.getD ex_frame_oob.pc_func fn_default).code.getD
          ex_frame_oob.pc_idx 0) 0 ∧
    (vm_execute_task vm_cfg_default ex_state_oob).1.program_status = RUNNING ∧
    (vm_execute_task vm_cfg_default ex_state_oob).1.frames = [⟨0, 5, 0, [], 1, [0]⟩] := by
  decide

/-! ### Claim C7 -/

/-- Claim C7: a CALL whose target id fails the `0 < n < function_count`
validation (id ≤ 0, or id ≥ function_count in the unsigned comparison the C
performs) makes program_error transition the status to ERROR and free all
frame memory, globals and program data; after that, run_program with any
fresh program passing validation succeeds from a clean state: the new
program is installed with a single frame for its function 0, fresh globals,
and status RUNNING. -/
theorem call_invalid_target_fault
    (cfg : vm_config) (s : vm_state) (p : program_t) (sp : stack_frame_t)
    (rest : List stack_frame_t)
    (hs : s.program_status = RUNNING) (hp : s.program = some p)
    (hf : s.frames = sp :: rest) (hbc : fell_off_check p sp = false)
    (hop : (p.functions.getD sp.pc_func fn_default).code.getD sp.pc_idx 0 = 38)
    (hid : bytes_to_int32 (p.functions.getD sp.pc_func fn_default).code (sp.pc_idx + 1) ≤ 0 ∨
      p.function_count ≤ u32_of_i32
        (bytes_to_int32 (p.functions.getD sp.pc_func fn_default).code (sp.pc_idx + 1))) :
    (vm_execute_task cfg s).1 = ⟨ERROR, none, [], []⟩ ∧
    ∀ p2 : program_t, prog_rejected (some p2) = false →
      run_program (vm_execute_task cfg s).1 (some p2) =
        (true, ⟨RUNNING, some p2, [create_stack_frame (p2.functions.getD 0 fn_default)],
          List.replicate p2.global_count 0⟩) := by
  have h1 : (vm_execute_task cfg s).1 = ⟨ERROR, none, [], []⟩ := by
    rw [vm_execute_task_eq cfg s p sp rest hs hp hf]
    simp only [exec_body, hbc, hop]
    simp only [List.getD_eq_getElem?_getD] at hid
    simp [hid, program_error, free_program]
  refine ⟨h1, ?_⟩
  intro p2 hok
  rw [h1]
  simp only [prog_rejected, Bool.or_eq_false_iff, decide_eq_false_iff_not,
    Bool.not_eq_false] at hok
  obtain ⟨⟨⟨hg, hc⟩, hz⟩, hfn⟩ := hok
  simp [run_program, hg, hc, hz, hfn, free_program]

/-- Claim C7, witness: executing CALL 999 in ex_state_badcall (whose program
has function_count = 5) faults to a fully freed ERROR state, and reloading
the valid ex_prog_ok then succeeds from a clean state. -/
theorem call_invalid_target_fault_witness :
    (vm_execute_task vm_cfg_default ex_state_badcall).1 = ⟨ERROR, none, [], []⟩ ∧
    run_program (vm_execute_task vm_cfg_default ex_state_badcall).1 (some ex_prog_ok) =
      (true, ⟨RUNNING, some ex_prog_ok,
        [create_stack_frame (ex_prog_ok.functions.getD 0 fn_default)],
        List.replicate 1 0⟩) := by
  have h := call_invalid_target_fault vm_cfg_default ex_state_badcall ex_prog_badcall
    ⟨0, 0, 0, [], 1, []⟩ [] rfl rfl rfl (by decide) (by decide) (by decide)
  exact ⟨h.1, h.2 ex_prog_ok (by decide)⟩

/-- Setting index k of a list and dropping k elements exposes the written
value at the head. -/
theorem set_drop_head : ∀ (l : List Int) (k : Nat) (a : Int), k < l.length →
    (l.set k a).drop k = a :: l.drop (k + 1)
  | _ :: _, 0, _, _ => rfl
  | _ :: xs, k + 1, a, h => by
      simp only [List.set_cons_succ, List.drop_succ_cons]
      exact set_drop_head xs k a (by simpa using h)

/-- Characterisation of the CALL argument-copy loop: with the caller's
operand stack holding args_rev (top first) above rs, popping
args_rev.length values into the locals array writes them in reverse order
into slots 0..args_rev.length-1 (so the last value popped lands in slot 0)
and leaves rs on the caller's stack. -/
theorem pop_args_spec : ∀ (args_rev rs : List Int) (caller : stack_frame_t)
    (locals : List Int), caller.stack = args_rev ++ rs →
    args_rev.length ≤ locals.length →
    pop_args args_rev.length caller locals =
      ({ caller with stack := rs }, args_rev.reverse ++ locals.drop args_rev.length)
  | [], rs, caller, locals, hstk, _ => by
      simp only [List.length_nil, pop_args, List.reverse_nil, List.nil_append,
        List.drop_zero]
      simp only [List.nil_append] at hstk
      rw [← hstk]
  | a :: t, rs, caller, locals, hstk, hlen => by
      simp only [List.length_cons, pop_args, stack_pop]
      rw [hstk]
      simp only [List.cons_append]
      have ih := pop_args_spec t rs { caller with stack := t ++ rs }
        (locals.set t.length a) rfl
        (by simpa using Nat.le_of_succ_le hlen)
      simp only [ih]
      rw [set_drop_head locals t.length a (by simpa using hlen)]
      simp [List.append_assoc]

/-! ### Claim C3 -/

/-- Claim C3: for a CALL with a valid target (0 < id < function_count), the
caller's program counter is advanced past the 5-byte CALL before the frame
switch - the caller is saved with pc_idx + 5, so a later RET resumes at the
instruction immediately after the CALL - and the callee's argument_count
operands are popped off the caller's stack into the new frame's locals with
the last popped value in slot 0: with args_rev the top of the caller's
stack (most recently pushed first), the new locals are args_rev.reverse
followed by the callee's remaining (zero-filled) locals, so pushing
v1, v2, v3 and calling a 3-argument function gives locals [v1, v2, v3, ...].
The second conjunct is the matching RET step: it discards the callee frame
and resumes the caller exactly as saved. -/
theorem call_semantics :
    (∀ (cfg : vm_config) (s : vm_state) (p : program_t) (sp : stack_frame_t)
      (rest : List stack_frame_t) (f callee : function_t) (args_rev rs : List Int),
      s.program_status = RUNNING → s.program = some p → s.frames = sp :: rest →
      fell_off_check p sp = false →
      p.functions.getD sp.pc_func fn_default = f →
      f.code.getD sp.pc_idx 0 = 38 →
      0 < bytes_to_int32 f.code (sp.pc_idx + 1) →
      u32_of_i32 (bytes_to_int32 f.code (sp.pc_idx + 1)) < p.function_count →
      p.functions.getD (u32_of_i32 (bytes_to_int32 f.code (sp.pc_idx + 1)))
        fn_default = callee →
      sp.stack = args_rev ++ rs →
      args_rev.length = callee.argument_count →
      (vm_execute_task cfg s).1 =
        { s with frames :=
            { pc_func := callee.id, pc_idx := 0,
              local_count := callee.argument_count + callee.local_count,
              locals := args_rev.reverse ++ List.replicate callee.local_count 0,
              max_stack_size := callee.stack_size, stack := [] } ::
            { sp with pc_idx := sp.pc_idx + 5, stack := rs } :: rest }) ∧
    (∀ (cfg : vm_config) (s : vm_state) (p : program_t) (top caller : stack_frame_t)
      (r : List stack_frame_t),
      s.program_status = RUNNING → s.program = some p →
      s.frames = top :: caller :: r → fell_off_check p top = false →
      (p.functions.getD top.pc_func fn_default).code.getD top.pc_idx 0 = 39 →
      (vm_execute_task cfg s).1 = { s with frames := caller :: r }) := by
  constructor
  · intro cfg s p sp rest f callee args_rev rs hs hp hf hbc hfn hop hpos hlt hcallee hstk hlen
    subst hfn
    rw [vm_execute_task_eq cfg s p sp rest hs hp hf]
    simp only [exec_body, hbc, hop]
    have hcond : ¬(bytes_to_int32 (p.functions.getD sp.pc_func fn_default).code
        (sp.pc_idx + 1) ≤ 0 ∨
        p.function_count ≤ u32_of_i32 (bytes_to_int32
          (p.functions.getD sp.pc_func fn_default).code (sp.pc_idx + 1))) := by
      push_neg
      exact ⟨hpos, hlt⟩
    have hIL : INSTR_LEN.getD 38 0 = 5 := rfl
    have hpa := pop_args_spec args_rev rs { sp with pc_idx := sp.pc_idx + 5 }
      (List.replicate (callee.argument_count + callee.local_count) 0)
      (by simpa using hstk) (by simp [hlen])
    rw [hlen] at hpa
    have hdrop : (List.replicate (callee.argument_count + callee.local_count)
        (0 : Int)).drop callee.argument_count = List.replicate callee.local_count 0 := by
      simp [List.drop_replicate]
    rw [hdrop] at hpa
    simp only [List.getD_eq_getElem?_getD] at hcond hcallee hpa hIL
    simp [hcond, hcallee, hpa, create_stack_frame, hIL]
  · intro cfg s p top caller r hs hp hf hbc hop
    rw [vm_execute_task_eq cfg s p top (caller :: r) hs hp hf]
    simp only [exec_body, hbc, hop]
    simp

/-- Claim C3, witness: in ex_state_call the values 1, 2, 3 were pushed (in
that order) and CALL 1 targets the 3-argument ex_fn_callee; the dispatch
produces the callee frame with locals [1, 2, 3, 0, 0] (v1 in slot 0, v2 in
slot 1, v3 in slot 2) above the caller saved at pc_idx 5 = just past the
CALL, and the subsequent RET resumes the caller exactly there. -/
theorem call_semantics_witness :
    (vm_execute_task vm_cfg_default ex_state_call).1 =
      { ex_state_call with
        frames := [⟨1, 0, 5, [1, 2, 3, 0, 0], 4, []⟩, ⟨0, 5, 0, [], 3, []⟩] } ∧
    (vm_execute_task vm_cfg_default { ex_state_call with
        frames := [⟨1, 0, 5, [1, 2, 3, 0, 0], 4, []⟩, ⟨0, 5, 0, [], 3, []⟩] }).1 =
      { ex_state_call with frames := [⟨0, 5, 0, [], 3, []⟩] } := by
  constructor
  · have h := call_semantics.1 vm_cfg_default ex_state_call ex_prog_call
      ⟨0, 0, 0, [], 3, [3, 2, 1]⟩ [] ex_fn_main ex_fn_callee [3, 2, 1] []
      rfl rfl rfl (by decide) (by decide) (by decide) (by decide) (by decide)
      (by decide) rfl (by decide)
    rw [h]
    decide
  · have h := call_semantics.2 vm_cfg_default
      { ex_state_call with
        frames := [⟨1, 0, 5, [1, 2, 3, 0, 0], 4, []⟩, ⟨0, 5, 0, [], 3, []⟩] }
      ex_prog_call ⟨1, 0, 5, [1, 2, 3, 0, 0], 4, []⟩ ⟨0, 5, 0, [], 3, []⟩ []
      rfl rfl rfl (by decide) (by decide)
    rw [h]

/-- A stale vm_execute_task invocation in a non-RUNNING state with a program
still installed frees everything and goes IDLE (vm.c lines 327-334). -/
theorem vm_task_frees (cfg : vm_config) (s : vm_state)
    (h : s.program_status ≠ RUNNING) (h2 : s.program.isSome = true) :
    (vm_execute_task cfg s).1 = ⟨IDLE, none, [], []⟩ := by
  simp [vm_execute_task, h, free_program, h2]

/-! ### Claim C1 -/

/-- Claim C1, counterexample.  The claim says a program failing load-time
validation leaves a previously running program untouched and still Running.
In the code run_program stops the running program BEFORE validating:
loading a NULL program into ex_state_running (which is RUNNING) returns
false, but the status is IDLE afterwards - not RUNNING - and the executor
task that stop_program posted then frees the old program's frames, globals
and program data. -/
theorem run_program_reject_cex :
    ex_state_running.program_status = RUNNING ∧
    (run_program ex_state_running none).1 = false ∧
    (run_program ex_state_running none).2.program_status ≠ RUNNING ∧
    (vm_execute_task vm_cfg_default (run_program ex_state_running none).2).1.program
      = none := by
  decide

/-- Claim C1, amended.  For every program failing a load-time validation
check, run_program returns false and installs nothing - the program, frame
and globals fields are exactly as before the call - but a previously
running program is NOT left untouched: its status has been forced to IDLE
(stop_program runs before validation), and the posted executor task then
frees its frames, globals and program data. -/
theorem run_program_reject_amended (cfg : vm_config) (s : vm_state)
    (prog : Option program_t) (hrej : prog_rejected prog = true)
    (hs : s.program_status = RUNNING) (hsome : s.program.isSome = true) :
    (run_program s prog).1 = false ∧
    (run_program s prog).2.program = s.program ∧
    (run_program s prog).2.frames = s.frames ∧
    (run_program s prog).2.globals = s.globals ∧
    (run_program s prog).2.program_status = IDLE ∧
    (vm_execute_task cfg (run_program s prog).2).1 = ⟨IDLE, none, [], []⟩ := by
  have key : run_program s prog = (false, { s with program_status := IDLE }) := by
    cases prog with
    | none => simp [run_program, hs, stop_program]
    | some p =>
        by_cases h1 : MAX_VAR_COUNT < p.global_count
        · simp [run_program, hs, stop_program, h1]
        · by_cases h2 : MAX_FUNC_COUNT < p.function_count
          · simp [run_program, hs, stop_program, h1, h2]
          · by_cases h3 : p.function_count = 0
            · simp [run_program, hs, stop_program, h1, h2, h3]
            · have h4 : functions_ok p = false := by
                simp only [prog_rejected, Bool.or_eq_true, decide_eq_true_eq,
                  Bool.not_eq_true'] at hrej
                rcases hrej with ((h | h) | h) | h
                · exact absurd h h1
                · exact absurd h h2
                · exact absurd h h3
                · exact h
              simp [run_program, hs, stop_program, h1, h2, h3, h4]
  rw [key]
  refine ⟨rfl, rfl, rfl, rfl, rfl, ?_⟩
  exact vm_task_frees cfg _ (by simp) (by simpa using hsome)

/-- Claim C1, witness for the amended theorem: loading ex_prog_toomany (33
globals, limit 32) into the running ex_state_running returns false, leaves
the old fields in place at return, forces the status to IDLE, and the next
executor task invocation frees everything. -/
theorem run_program_reject_amended_witness :
    prog_rejected (some ex_prog_toomany) = true ∧
    ex_state_running.program_status = RUNNING ∧
    (run_program ex_state_running (some ex_prog_toomany)).1 = false ∧
    (run_program ex_state_running (some ex_prog_toomany)).2.program =
      ex_state_running.program ∧
    (vm_execute_task vm_cfg_default
      (run_program ex_state_running (some ex_prog_toomany)).2).1 =
      ⟨IDLE, none, [], []⟩ := by
  have h := run_program_reject_amended vm_cfg_default ex_state_running
    (some ex_prog_toomany) (by decide) rfl rfl
  exact ⟨by decide, rfl, h.1, h.2.1, h.2.2.2.2.2⟩

/-! ### Motor idle and no-motion helper lemmas -/

/-- With no work queued (total_ticks = 0) a motor tick only counts idleness:
it either de-energizes the coils (idle_count would exceed MAX_IDLE_COUNT)
and resets the counter, or just increments the counter; it never steps a
motor nor invokes the callback. -/
theorem motor_timer_cb_idle (s : motors_state) (h : s.total_ticks = 0) :
    motor_timer_cb s =
      if MAX_IDLE_COUNT < s.idle_count + 1 then
        ⟨{ s with idle_count := 0 }, true, false, false, false, some stop_motors_gpio⟩
      else ⟨{ s with idle_count := s.idle_count + 1 }, false, false, false, false, none⟩ := by
  rw [motor_timer_cb]
  simp [h]

/-- Any number of motor ticks from a state with zero tick budget keeps the
budget at zero and never steps a motor nor invokes the callback. -/
theorem run_count_no_motion : ∀ (n : Nat) (s : motors_state), s.total_ticks = 0 →
    (run_count n s).1.total_ticks = 0 ∧ (run_count n s).2.left_count = 0 ∧
    (run_count n s).2.right_count = 0 ∧ (run_count n s).2.cb_count = 0
  | 0, s, h => by simp [run_count, h]
  | n + 1, s, h => by
      have hcb := motor_timer_cb_idle s h
      by_cases hth : MAX_IDLE_COUNT < s.idle_count + 1
      · rw [if_pos hth] at hcb
        have ih := run_count_no_motion n { s with idle_count := 0 } h
        simp [run_count, hcb, ih]
      · rw [if_neg hth] at hcb
        have ih := run_count_no_motion n { s with idle_count := s.idle_count + 1 } h
        simp [run_count, hcb, ih]

/-- As long as the idle counter stays within MAX_IDLE_COUNT, idle ticks only
accumulate the counter and stop_motors is never called. -/
theorem run_count_idle : ∀ (k : Nat) (s : motors_state), s.total_ticks = 0 →
    s.idle_count + k ≤ MAX_IDLE_COUNT →
    (run_count k s).1 = { s with idle_count := s.idle_count + k } ∧
    (run_count k s).2.stop_count = 0
  | 0, s, _, _ => by simp [run_count]
  | k + 1, s, h, hle => by
      have hcb := motor_timer_cb_idle s h
      rw [if_neg (by omega)] at hcb
      have ih := run_count_idle k { s with idle_count := s.idle_count + 1 } h (by simp; omega)
      simp [run_count, hcb, ih.2, ih.1]
      omega

/-! ### Claim C10 -/

/-- Claim C10: drive_motors with both step counts zero returns right after
clearing the totals, before any phase or stepper setup - phase_data,
stepper_data and the sequence indices keep their previous values - and
leaves total_ticks at 0, so no subsequent motor timer tick ever steps a
motor for this request, and the stored completion callback is never invoked
by the motor path: a VM instruction deferring on such a request is never
resumed from there. -/
theorem drive_zero_inert (cfg tc : Nat) (acc cb : Bool) (s : motors_state) :
    (drive_motors cfg 0 0 tc acc cb s).total_ticks = 0 ∧
    (drive_motors cfg 0 0 tc acc cb s).phase_data = s.phase_data ∧
    (drive_motors cfg 0 0 tc acc cb s).stepper0 = s.stepper0 ∧
    (drive_motors cfg 0 0 tc acc cb s).stepper1 = s.stepper1 ∧
    (drive_motors cfg 0 0 tc acc cb s).current_step0 = s.current_step0 ∧
    (drive_motors cfg 0 0 tc acc cb s).current_step1 = s.current_step1 ∧
    ∀ n : Nat,
      (run_count n (drive_motors cfg 0 0 tc acc cb s)).2.left_count = 0 ∧
      (run_count n (drive_motors cfg 0 0 tc acc cb s)).2.right_count = 0 ∧
      (run_count n (drive_motors cfg 0 0 tc acc cb s)).2.cb_count = 0 ∧
      (run_count n (drive_motors cfg 0 0 tc acc cb s)).1.total_ticks = 0 := by
  have hd : drive_motors cfg 0 0 tc acc cb s =
      { s with total_ticks := 0, total_steps := 0, current_tick := 0,
               current_phase := if acc then ACCEL_1 else CRUISING,
               acceleration_active := acc, motor_cb := cb } := by
    simp [drive_motors]
  refine ⟨by rw [hd], by rw [hd], by rw [hd], by rw [hd], by rw [hd], by rw [hd], ?_⟩
  intro n
  have h0 : (drive_motors cfg 0 0 tc acc cb s).total_ticks = 0 := by rw [hd]
  have h := run_count_no_motion n (drive_motors cfg 0 0 tc acc cb s) h0
  exact ⟨h.2.1, h.2.2.1, h.2.2.2, h.1⟩

/-! ### Claim C9 -/

/-- Claim C9, counterexample.  The claim says that after 5000 consecutive
idle motor ticks the callback de-energizes the coils.  Starting from
motors_init (no motion queued, idle counter zero), 5000 consecutive ticks
never call stop_motors: the guard is `++idle_count > MAX_IDLE_COUNT`, so
de-energizing happens only on the 5001st consecutive idle tick. -/
theorem idle_stop_claim_cex :
    motors_init.total_ticks = 0 ∧ motors_init.idle_count = 0 ∧
    (run_count 5000 motors_init).2.stop_count = 0 := by
  exact ⟨rfl, rfl, (run_count_idle 5000 motors_init rfl (by decide)).2⟩

/-- Claim C9, amended.  From any state with no motion in progress and a
fresh idle counter, the first 5000 motor ticks never de-energize; the
5001st consecutive idle tick calls stop_motors, issuing the GPIO write that
clears every coil line of both steppers; and a subsequent motion request
re-energizes the motors: its first advance commands both motors a step,
issuing a new GPIO step pattern. -/
theorem idle_stop_amended (s : motors_state)
    (h0 : s.total_ticks = 0) (h1 : s.idle_count = 0) :
    (run_count 5000 s).2.stop_count = 0 ∧
    (motor_timer_cb (run_count 5000 s).1).stopped_motors = true ∧
    (motor_timer_cb (run_count 5000 s).1).gpio = some stop_motors_gpio ∧
    (∀ (cb : Bool) (s2 : motors_state),
      (motor_timer_cb (drive_motors 0 1 1 1 false cb s2)).left_stepped = true ∧
      (motor_timer_cb (drive_motors 0 1 1 1 false cb s2)).right_stepped = true ∧
      (motor_timer_cb (drive_motors 0 1 1 1 false cb s2)).gpio.isSome = true) := by
  have hrc := run_count_idle 5000 s h0 (by rw [h1]; decide)
  have hstate : (run_count 5000 s).1 = { s with idle_count := 5000 } := by
    rw [hrc.1, h1]
  have hnext := motor_timer_cb_idle { s with idle_count := 5000 } h0
  simp only [MAX_IDLE_COUNT] at hnext
  norm_num at hnext
  refine ⟨hrc.2, ?_, ?_, ?_⟩
  · rw [hstate, hnext]
  · rw [hstate, hnext]
  · intro cb s2
    have hd : drive_motors 0 1 1 1 false cb s2 =
        { s2 with
          total_ticks := 1
          total_steps := 1
          current_tick := 0
          current_phase := CRUISING
          acceleration_active := false
          motor_cb := cb
          phase_data := ⟨0, 0, 1, 0, s2.phase_data.last_position⟩
          stepper0 := ⟨1, 1, 0, -1, 1⟩
          stepper1 := ⟨1, 1, 0, -1, 1⟩ } := by
      simp [drive_motors]
    rw [hd, motor_timer_cb]
    simp [dda_advance, step_motors]

/-- Claim C9, witness: from motors_init the 5001st consecutive idle tick
de-energizes both motors, and a fresh 1-step motion request issues a new
GPIO pattern on its first tick. -/
theorem idle_stop_amended_witness :
    (run_count 5000 motors_init).2.stop_count = 0 ∧
    (motor_timer_cb (run_count 5000 motors_init).1).stopped_motors = true ∧
    (motor_timer_cb (drive_motors 0 1 1 1 false false motors_init)).gpio.isSome
      = true := by
  have h := idle_stop_amended motors_init rfl rfl
  exact ⟨h.1, h.2.1, (h.2.2.2 false motors_init).2.2⟩

/-! ### Claim C4 -/

/-- Claim C4, counterexample.  The claim says d is initialised to
2·steps - total_units for every motion request, with total_units the number
of logical advances, max(|left|,|right|) (spec 4.3).  For the request
left=5, right=3 with a 10-tick budget and no acceleration, the code
initialises the left motor's d to 2·5 - tick_count = 0, not
2·5 - max(5,3) = 5. -/
theorem dda_init_claim_cex :
    (drive_motors 0 5 3 10 false false motors_init).stepper0.d = 0 ∧
    ¬ (drive_motors 0 5 3 10 false false motors_init).stepper0.d = 2 * 5 - 5 := by
  decide

/-- Claim C4, amended.  Each motor's accumulator is initialised to
2·steps - U where U is max(|left|,|right|) when accelerating and the
caller-supplied tick_count otherwise (the VM always passes
tick_count = max(|left|,|right|), making the two readings agree there);
on each logical advance, if d > 0 the motor's step counter increments and d
decreases by 2·total_steps (total_steps = max of the two magnitudes), and
then d always increases by 2·steps; a motor with steps == 0 never steps;
and for left=5, right=3 over 5 advances the left motor emits exactly 5
physical steps and the right exactly 3. -/
theorem dda_semantics_amended :
    (∀ (cfg : Nat) (l r : Int) (tc : Nat) (acc cb : Bool) (s : motors_state),
      ¬(l = 0 ∧ r = 0) →
      (drive_motors cfg l r tc acc cb s).stepper0.d =
        2 * (l.natAbs : Int) -
          (if acc then ((max l.natAbs r.natAbs : Nat) : Int) else (tc : Int)) ∧
      (drive_motors cfg l r tc acc cb s).stepper1.d =
        2 * (r.natAbs : Int) -
          (if acc then ((max l.natAbs r.natAbs : Nat) : Int) else (tc : Int)) ∧
      (drive_motors cfg l r tc acc cb s).stepper0.steps = (l.natAbs : Int) ∧
      (drive_motors cfg l r tc acc cb s).stepper1.steps = (r.natAbs : Int) ∧
      (drive_motors cfg l r tc acc cb s).total_steps = max l.natAbs r.natAbs) ∧
    (∀ (T : Nat) (t : tick_data_t), 0 < t.steps →
      (dda_advance T t).1.d =
        (if 0 < t.d then t.d - 2 * (T : Int) else t.d) + 2 * t.steps ∧
      (dda_advance T t).1.step = (if 0 < t.d then t.step + 1 else t.step) ∧
      ((dda_advance T t).2 = true ↔ t.step ≠ t.last_step)) ∧
    (∀ (T : Nat) (t : tick_data_t), t.steps ≤ 0 → dda_advance T t = (t, false)) ∧
    ((run_count 5 (drive_motors 0 5 3 5 false true motors_init)).2.left_count = 5 ∧
     (run_count 5 (drive_motors 0 5 3 5 false true motors_init)).2.right_count = 3) := by
  refine ⟨?_, ?_, ?_, ?_⟩
  · intro cfg l r tc acc cb s h
    simp [drive_motors, h]
  · intro T t h
    have h2 : ¬ t.steps ≤ 0 := not_le.mpr h
    by_cases hf : t.step = t.last_step <;> by_cases hd : 0 < t.d <;>
      simp [dda_advance, h2, hf, hd]
  · intro T t h
    simp [dda_advance, h]
  · norm_num [run_count, motor_timer_cb, dda_advance, step_motors, drive_motors,
      motors_init, MAX_IDLE_COUNT]

/-- Claim C4, witness: the amended theorem applied at the concrete request
left=5, right=3, tick budget 5, no acceleration - the accumulators start at
2·5-5 = 5 and 2·3-5 = 1, a skipped advance leaves the counter unchanged,
and the 5-tick run emits 5 left and 3 right physical steps. -/
theorem dda_semantics_amended_witness :
    (drive_motors 0 5 3 5 false true motors_init).stepper0.d = 5 ∧
    (drive_motors 0 5 3 5 false true motors_init).stepper1.d = 1 ∧
    dda_advance 5 ⟨3, -3, 1, 1, 1⟩ = (⟨3, 3, 1, 1, 1⟩, false) ∧
    (run_count 5 (drive_motors 0 5 3 5 false true motors_init)).2.left_count = 5 := by
  refine ⟨?_, ?_, ?_, dda_semantics_amended.2.2.2.1⟩
  · have h := (dda_semantics_amended.1 0 5 3 5 false true motors_init (by decide)).1
    rw [h]
    decide
  · have h := (dda_semantics_amended.1 0 5 3 5 false true motors_init (by decide)).2.1
    rw [h]
    decide
  · have h := (dda_semantics_amended.2.1 5 ⟨3, -3, 1, 1, 1⟩ (by decide)).1
    decide

/-! ### Claim C5 -/

/-- The bisection loop of drive_motors computes the LEAST candidate in
[left, right] satisfying a monotone predicate (with pred right = true):
pred holds at the result, and fails strictly below it. -/
theorem bisect_loop_least (pred : Nat → Bool) (R : Nat)
    (mono : ∀ i j : Nat, i ≤ j → j ≤ R → pred i = true → pred j = true) :
    ∀ (fuel left right : Nat), right - left < fuel → left ≤ right → right ≤ R →
      pred right = true →
      pred (bisect_loop pred fuel left right) = true ∧
      left ≤ bisect_loop pred fuel left right ∧
      bisect_loop pred fuel left right ≤ right ∧
      ∀ m, left ≤ m → m < bisect_loop pred fuel left right → pred m = false
  | 0, left, right, hfuel, hlr, _, _ => absurd hfuel (by omega)
  | fuel + 1, left, right, hfuel, hlr, hR, hpr => by
      rw [bisect_loop]
      by_cases hlt : left < right
      · rw [if_pos hlt]
        by_cases hp : pred ((left + right) / 2) = true
        · rw [if_pos hp]
          have ih := bisect_loop_least pred R mono fuel left ((left + right) / 2)
            (by omega) (by omega) (by omega) hp
          exact ⟨ih.1, ih.2.1, le_trans ih.2.2.1 (by omega), ih.2.2.2⟩
        · rw [if_neg hp]
          have ih := bisect_loop_least pred R mono fuel ((left + right) / 2 + 1) right
            (by omega) (by omega) hR hpr
          refine ⟨ih.1, by omega, ih.2.2.1, ?_⟩
          intro m hm hmres
          by_cases hcase : (left + right) / 2 + 1 ≤ m
          · exact ih.2.2.2 m hcase hmres
          · rw [Bool.eq_false_iff]
            intro hc
            exact hp (mono m ((left + right) / 2) (by omega) (by omega) hc)
      · rw [if_neg hlt]
        have heq : left = right := by omega
        subst heq
        exact ⟨hpr, le_refl _, le_refl _, fun m hm hml => absurd (lt_of_lt_of_le hml hm)
          (lt_irrefl m)⟩

/-- In the accelerated short-move case (max(|l|,|r|)/2 < configured/2), the
accel_limit drive_motors stores is exactly the bisection result. -/
theorem drive_motors_accel_limit (cfg : Nat) (l r : Int) (tc : Nat) (cb : Bool)
    (s : motors_state) (hnz : ¬(l = 0 ∧ r = 0))
    (hshort : max l.natAbs r.natAbs / 2 < cfg / 2) :
    (drive_motors cfg l r tc true cb s).phase_data.accel_limit =
      accel_limit_calc cfg (max l.natAbs r.natAbs) := by
  rw [drive_motors]
  rw [if_neg hnz]
  simp only [if_pos hshort]
  simp

/-- The truncated half-profile displacements for accel_duration 5 at every
candidate 0..10 (the search range of a configured acceleration duration of
10): 0,0,0,0,0,0,1,2,3,4,5.  In C these are single-precision evaluations of
m³/150 and -(m-5)³/150+(m-5)²/10+(m-5)/2+125/150; every value is at least
0.04 away from the nearest integer, far beyond float rounding error, so the
exact ℚ truncations below equal the float ones. -/
theorem half_profile_five_vals :
    u32_floor (half_profile 5 0) = 0 ∧ u32_floor (half_profile 5 1) = 0 ∧
    u32_floor (half_profile 5 2) = 0 ∧ u32_floor (half_profile 5 3) = 0 ∧
    u32_floor (half_profile 5 4) = 0 ∧ u32_floor (half_profile 5 5) = 0 ∧
    u32_floor (half_profile 5 6) = 1 ∧ u32_floor (half_profile 5 7) = 2 ∧
    u32_floor (half_profile 5 8) = 3 ∧ u32_floor (half_profile 5 9) = 4 ∧
    u32_floor (half_profile 5 10) = 5 := by
  refine ⟨?_, ?_, ?_, ?_, ?_, ?_, ?_, ?_, ?_, ?_, ?_⟩ <;>
    norm_num [u32_floor, half_profile] <;> rfl

/-- Monotonicity of the truncated half-profile over the search range for
accel_duration 5, at the threshold 3. -/
theorem u32_floor_five_mono : ∀ j, j ≤ 10 → ∀ i, i ≤ j →
    3 ≤ u32_floor (half_profile 5 i) → 3 ≤ u32_floor (half_profile 5 j) := by
  obtain ⟨h0, h1, h2, h3, h4, h5, h6, h7, h8, h9, h10⟩ := half_profile_five_vals
  intro j hj i hij hp
  interval_cases j <;> interval_cases i <;> simp_all

/-- The bisection result for a configured acceleration duration of 10 and 6
total steps: the search returns 8, the first candidate whose truncated
displacement reaches the target 3. -/
theorem accel_limit_calc_ten_six : accel_limit_calc 10 6 = 8 := by
  obtain ⟨h0, h1, h2, h3, h4, h5, h6, h7, h8, h9, h10⟩ := half_profile_five_vals
  have hmono : ∀ i j : Nat, i ≤ j → j ≤ 10 →
      (fun mid => decide (6 / 2 ≤ u32_floor (half_profile (10 / 2) mid))) i = true →
      (fun mid => decide (6 / 2 ≤ u32_floor (half_profile (10 / 2) mid))) j = true := by
    intro i j hij hj hp
    simp only [decide_eq_true_eq] at hp ⊢
    exact u32_floor_five_mono j hj i hij hp
  have hp10 : (fun mid => decide (6 / 2 ≤ u32_floor (half_profile (10 / 2) mid))) 10
      = true := by
    simp only [decide_eq_true_eq]
    show 3 ≤ u32_floor (half_profile 5 10)
    omega
  have H := bisect_loop_least
    (fun mid => decide (6 / 2 ≤ u32_floor (half_profile (10 / 2) mid))) 10 hmono
    (10 + 1) 0 10 (by omega) (by omega) (by omega) hp10
  obtain ⟨Hpred, -, Hle, Hmin⟩ := H
  have hL : accel_limit_calc 10 6 = bisect_loop
      (fun mid => decide (6 / 2 ≤ u32_floor (half_profile (10 / 2) mid))) (10 + 1) 0 10 :=
    rfl
  rw [hL]
  set L := bisect_loop
    (fun mid => decide (6 / 2 ≤ u32_floor (half_profile (10 / 2) mid))) (10 + 1) 0 10 with hLdef
  have hn8 : ¬ 8 < L := by
    intro hlt
    have := Hmin 8 (by omega) hlt
    simp only [decide_eq_true_eq] at this
    rw [Bool.eq_false_iff] at this
    apply this
    simp only [decide_eq_true_eq]
    show 3 ≤ u32_floor (half_profile 5 8)
    omega
  have hn7 : ¬ L < 8 := by
    intro hlt
    have hp7 := hmono L 7 (by omega) (by omega) Hpred
    simp only [decide_eq_true_eq] at hp7
    have : 3 ≤ u32_floor (half_profile 5 7) := hp7
    omega
  omega

/-- Claim C5, counterexample.  For a configured acceleration duration of 10
(accel_duration 5) and a request of 6 total steps (so target = 6/2 = 3 and
the short-move branch is taken, 5 > 3), the bisection stores accel_limit 8;
but the half-profile displacement at 8 is 229/75 ≈ 3.053, which EXCEEDS
total_steps/2 = 3, while 7 (displacement 109/50 = 2.18 ≤ 3) is the largest
candidate not exceeding it.  So the computed accel_limit is not "the
largest value whose half-profile displacement does not exceed
total_steps/2". -/
theorem bisection_claim_cex :
    (drive_motors 10 6 3 0 true false motors_init).phase_data.accel_limit = 8 ∧
    (3 : ℚ) < half_profile 5 8 ∧ half_profile 5 7 ≤ 3 := by
  refine ⟨?_, by norm_num [half_profile], by norm_num [half_profile]⟩
  rw [drive_motors_accel_limit 10 6 3 0 false motors_init (by decide) (by decide)]
  exact accel_limit_calc_ten_six

/-- Claim C5, amended.  In the short-move case the bisection computes
accel_limit as the SMALLEST candidate in [0, configured acceleration
duration] whose truncated half-profile displacement reaches (is at least)
total_steps/2 - every smaller candidate falls short of the target; its own
displacement may strictly exceed total_steps/2 (hypotheses: the truncated
profile is monotone over the range and reaches the target at the range
end, both of which hold for the concrete profiles, being truncations of an
increasing curve). -/
theorem bisection_amended (cfg : Nat) (l r : Int) (tc : Nat) (cb : Bool)
    (s : motors_state) (hnz : ¬(l = 0 ∧ r = 0))
    (hshort : max l.natAbs r.natAbs / 2 < cfg / 2)
    (hmono : ∀ i j : Nat, i ≤ j → j ≤ cfg →
      max l.natAbs r.natAbs / 2 ≤ u32_floor (half_profile (cfg / 2) i) →
      max l.natAbs r.natAbs / 2 ≤ u32_floor (half_profile (cfg / 2) j))
    (hend : max l.natAbs r.natAbs / 2 ≤ u32_floor (half_profile (cfg / 2) cfg)) :
    max l.natAbs r.natAbs / 2 ≤ u32_floor (half_profile (cfg / 2)
      ((drive_motors cfg l r tc true cb s).phase_data.accel_limit)) ∧
    (drive_motors cfg l r tc true cb s).phase_data.accel_limit ≤ cfg ∧
    ∀ m, m < (drive_motors cfg l r tc true cb s).phase_data.accel_limit →
      u32_floor (half_profile (cfg / 2) m) < max l.natAbs r.natAbs / 2 := by
  rw [drive_motors_accel_limit cfg l r tc cb s hnz hshort]
  have hbool : ∀ i j : Nat, i ≤ j → j ≤ cfg →
      (fun mid => decide (max l.natAbs r.natAbs / 2 ≤
        u32_floor (half_profile (cfg / 2) mid))) i = true →
      (fun mid => decide (max l.natAbs r.natAbs / 2 ≤
        u32_floor (half_profile (cfg / 2) mid))) j = true := by
    intro i j hij hj hp
    simp only [decide_eq_true_eq] at hp ⊢
    exact hmono i j hij hj hp
  have H := bisect_loop_least
    (fun mid => decide (max l.natAbs r.natAbs / 2 ≤
      u32_floor (half_profile (cfg / 2) mid))) cfg hbool
    (cfg + 1) 0 cfg (by omega) (by omega) (by omega)
    (by simp only [decide_eq_true_eq]; exact hend)
  obtain ⟨Hpred, -, Hle, Hmin⟩ := H
  simp only [decide_eq_true_eq] at Hpred
  refine ⟨Hpred, Hle, ?_⟩
  intro m hm
  have := Hmin m (by omega) hm
  rw [Bool.eq_false_iff] at this
  by_contra hc
  apply this
  simp only [decide_eq_true_eq]
  omega

/-- Claim C5, witness: the amended theorem at the concrete short move
(configured acceleration duration 10, steps 6, 3): the stored accel_limit's
truncated displacement reaches the target 3, it lies in [0, 10], and every
smaller candidate falls short; by accel_limit_calc_ten_six it is 8. -/
theorem bisection_amended_witness :
    3 ≤ u32_floor (half_profile 5
      ((drive_motors 10 6 3 7 true true motors_init).phase_data.accel_limit)) ∧
    (drive_motors 10 6 3 7 true true motors_init).phase_data.accel_limit ≤ 10 ∧
    ∀ m, m < (drive_motors 10 6 3 7 true true motors_init).phase_data.accel_limit →
      u32_floor (half_profile 5 m) < 3 := by
  have h := bisection_amended 10 6 3 7 true motors_init (by decide) (by decide)
    (fun i j hij hj hp => u32_floor_five_mono j hj i hij hp)
    (by have hv := half_profile_five_vals; show (3 : Nat) ≤ u32_floor (half_profile 5 10); omega)
  exact h

/-! ### Claim C8 -/

/-- Int values already in int8 range pass through the int8 store unchanged. -/
theorem int8_of_id (x : Int) (h1 : -128 ≤ x) (h2 : x < 128) : int8_of x = x := by
  simp only [int8_of]
  split <;> omega

/-- The set_servo clamp lands in [-90, 90]. -/
theorem clamp90_bounds (x : Int) : -90 ≤ clamp90 x ∧ clamp90 x ≤ 90 := by
  unfold clamp90
  split <;> [omega; split <;> omega]

/-- The clamp is the identity on angles already in [-90, 90]. -/
theorem clamp90_id (x : Int) (h1 : -90 ≤ x) (h2 : x ≤ 90) : clamp90 x = x := by
  unfold clamp90
  split <;> omega

/-- A truncated quotient of a difference of angles by a step count of at
least 2 fits in [-90, 90] (and hence in int8). -/
theorem tdiv_range (d : Int) (n : Nat) (hn : 2 ≤ n) (hd1 : -180 ≤ d) (hd2 : d ≤ 180) :
    -90 ≤ d.tdiv (n : Int) ∧ d.tdiv (n : Int) ≤ 90 := by
  have h : (d.tdiv (n : Int)).natAbs = d.natAbs / n := by
    rw [Int.natAbs_tdiv, Int.natAbs_ofNat]
    rfl
  have h1 : d.natAbs ≤ 180 := by omega
  have h4 : d.natAbs / n ≤ d.natAbs / 2 := Nat.div_le_div_left hn (by omega)
  have h5 : d.natAbs / 2 ≤ 90 := by omega
  have h6 : (d.tdiv (n : Int)).natAbs ≤ 90 := by omega
  omega

/-- Partial sums of the per-tick increment stay between the start and the
destination angle, hence within [-90, 90]: a0 + k·((c-a0) tdiv n) is in
range for every k ≤ n when a0 and c are. -/
theorem tdiv_partial_bound (a0 c : Int) (n k : Nat) (hk : k ≤ n)
    (h1 : -90 ≤ a0) (h2 : a0 ≤ 90) (h3 : -90 ≤ c) (h4 : c ≤ 90) :
    -90 ≤ a0 + (k : Int) * ((c - a0).tdiv (n : Int)) ∧
    a0 + (k : Int) * ((c - a0).tdiv (n : Int)) ≤ 90 := by
  by_cases hd : 0 ≤ c - a0
  · have hq : 0 ≤ (c - a0).tdiv (n : Int) := Int.tdiv_nonneg hd (by positivity)
    have hmod := Int.tmod_add_tdiv (c - a0) (n : Int)
    have hmn : 0 ≤ Int.tmod (c - a0) (n : Int) := Int.tmod_nonneg _ hd
    have hkq : (k : Int) * ((c - a0).tdiv (n : Int)) ≤
        (n : Int) * ((c - a0).tdiv (n : Int)) :=
      mul_le_mul_of_nonneg_right (by exact_mod_cast hk) hq
    have h0 : 0 ≤ (k : Int) * ((c - a0).tdiv (n : Int)) :=
      mul_nonneg (by positivity) hq
    omega
  · push_neg at hd
    have hrw : (c - a0).tdiv (n : Int) = -((a0 - c).tdiv (n : Int)) := by
      rw [← Int.neg_tdiv]
      ring_nf
    have hq' : 0 ≤ (a0 - c).tdiv (n : Int) := Int.tdiv_nonneg (by omega) (by positivity)
    have hmod := Int.tmod_add_tdiv (a0 - c) (n : Int)
    have hmn : 0 ≤ Int.tmod (a0 - c) (n : Int) := Int.tmod_nonneg _ (by omega)
    have hkq : (k : Int) * ((a0 - c).tdiv (n : Int)) ≤
        (n : Int) * ((a0 - c).tdiv (n : Int)) :=
      mul_le_mul_of_nonneg_right (by exact_mod_cast hk) hq'
    have h0 : 0 ≤ (k : Int) * ((a0 - c).tdiv (n : Int)) :=
      mul_nonneg (by positivity) hq'
    rw [hrw]
    have hneg : (k : Int) * -((a0 - c).tdiv (n : Int)) =
        -((k : Int) * ((a0 - c).tdiv (n : Int))) := by ring
    rw [hneg]
    omega

/-- Invariant of the servo ticks before the final one: starting from step j
with angle a0 + j·q, running k more ticks (still short of the configured
count) advances the angle by exactly q per tick with no wrap-around, and
preserves the destination, step size, armed timer and callback. -/
theorem servo_run_invariant (cfg : Nat) (a0 c q : Int) (hcfg : 2 ≤ cfg)
    (h1 : -90 ≤ a0) (h2 : a0 ≤ 90) (h3 : -90 ≤ c) (h4 : c ≤ 90)
    (hq : q = (c - a0).tdiv (cfg : Int)) :
    ∀ (k j : Nat), j + k < cfg →
    ∀ s : servo_state, s.servo_angle = a0 + (j : Int) * q → s.destination_angle = c →
      s.servo_step = j → s.servo_step_size = q → s.timer_on = true →
      (servo_run cfg k s).servo_angle = a0 + ((j + k : Nat) : Int) * q ∧
      (servo_run cfg k s).servo_step = j + k ∧
      (servo_run cfg k s).destination_angle = c ∧
      (servo_run cfg k s).servo_step_size = q ∧
      (servo_run cfg k s).timer_on = true ∧
      (servo_run cfg k s).servo_cb = s.servo_cb
  | 0, j, hjk, s, ha, hd, hst, hss, hon => by
      refine ⟨?_, ?_, ?_, ?_, ?_, ?_⟩ <;> simp [servo_run, ha, hd, hst, hss, hon]
  | k + 1, j, hjk, s, ha, hd, hst, hss, hon => by
      have hnf : ¬ cfg ≤ s.servo_step + 1 := by omega
      have hb := tdiv_partial_bound a0 c cfg (j + 1) (by omega) h1 h2 h3 h4
      have hangle : int8_of (s.servo_angle + s.servo_step_size) =
          a0 + ((j + 1 : Nat) : Int) * q := by
        rw [ha, hss, hq]
        push_cast
        push_cast at hb
        rw [show a0 + (j : Int) * ((c - a0).tdiv (cfg : Int)) + (c - a0).tdiv (cfg : Int)
          = a0 + ((j : Int) + 1) * ((c - a0).tdiv (cfg : Int)) from by ring]
        exact int8_of_id _ (by omega) (by omega)
      have hnfj : ¬ cfg ≤ j + 1 := by omega
      have hs' : (servo_timer_cb cfg s).1 = { s with
          servo_angle := a0 + ((j + 1 : Nat) : Int) * q, servo_step := j + 1 } := by
        rw [servo_timer_cb]
        simp [hon, hnf, hst, hangle, hnfj]
      have ih := servo_run_invariant cfg a0 c q hcfg h1 h2 h3 h4 hq k (j + 1) (by omega)
        ((servo_timer_cb cfg s).1) (by rw [hs']) (by rw [hs']; exact hd)
        (by rw [hs']) (by rw [hs']; exact hss) (by rw [hs']; exact hon)
      rw [servo_run]
      have hcast : ((j + 1 + k : Nat) : Int) = ((j + (k + 1) : Nat) : Int) := by
        push_cast
        ring
      refine ⟨?_, ?_, ih.2.2.1, ih.2.2.2.1, ih.2.2.2.2.1, ?_⟩
      · rw [ih.1, hcast]
      · rw [ih.2.1]
        omega
      · rw [ih.2.2.2.2.2, hs']

/-- Running exactly the remaining ticks of an armed servo movement ends with
the angle snapped exactly to the destination angle and the timer disarmed -
regardless of any rounding in the per-tick step size. -/
theorem servo_run_snap : ∀ (cfg j : Nat) (s : servo_state), s.timer_on = true →
    s.servo_step + j = cfg → 1 ≤ j →
    (servo_run cfg j s).servo_angle = s.destination_angle ∧
    (servo_run cfg j s).timer_on = false
  | cfg, 1, s, hon, hstep, _ => by
      have hf : cfg ≤ s.servo_step + 1 := by omega
      rw [servo_run, servo_run, servo_timer_cb]
      simp [hon, hf]
  | cfg, j + 2, s, hon, hstep, _ => by
      have hnf : ¬ cfg ≤ s.servo_step + 1 := by omega
      have hs' : (servo_timer_cb cfg s).1 = { s with
          servo_angle := int8_of (s.servo_angle + s.servo_step_size),
          servo_step := s.servo_step + 1 } := by
        rw [servo_timer_cb]
        simp [hon, hnf]
      have ih := servo_run_snap cfg (j + 1) ((servo_timer_cb cfg s).1)
        (by rw [hs']; exact hon) (by rw [hs']; simp; omega) (by omega)
      rw [servo_run]
      rw [hs'] at ih ⊢
      exact ⟨by rw [ih.1], ih.2⟩

/-- The fields set_servo writes (with a non-zero configured step count). -/
theorem set_servo_fields (cfg : Nat) (t : Int) (cb : Bool) (s : servo_state)
    (hcz : cfg ≠ 0) :
    (set_servo cfg t cb s).destination_angle = clamp90 t ∧
    (set_servo cfg t cb s).servo_step = 0 ∧
    (set_servo cfg t cb s).timer_on = true ∧
    (set_servo cfg t cb s).servo_cb = cb ∧
    (set_servo cfg t cb s).servo_angle = s.servo_angle ∧
    (set_servo cfg t cb s).servo_step_size =
      int8_of ((clamp90 t - s.servo_angle).tdiv (cfg : Int)) := by
  rw [set_servo]
  simp [hcz]

/-- Claim C8: for any configured step count (1 or N) the requested target
is clamped to [-90, 90]; every tick before the last advances the angle by
exactly (clamped target - start)/steps (C truncating division); the final
step sets the angle exactly to the clamped target and fires the completion
callback; hence a servo_up followed by a servo_down always ends at exactly
the configured down angle (itself in [-90, 90]), with no accumulated
rounding drift. -/
theorem servo_move_semantics (cfg : Nat) (target : Int) (cb : Bool) (s : servo_state)
    (hcfg : 1 ≤ cfg) (ha1 : -90 ≤ s.servo_angle) (ha2 : s.servo_angle ≤ 90) :
    (set_servo cfg target cb s).destination_angle = clamp90 target ∧
    (-90 ≤ clamp90 target ∧ clamp90 target ≤ 90) ∧
    (∀ k, k < cfg → (servo_run cfg k (set_servo cfg target cb s)).servo_angle =
      s.servo_angle + (k : Int) * ((clamp90 target - s.servo_angle).tdiv (cfg : Int))) ∧
    (servo_run cfg cfg (set_servo cfg target cb s)).servo_angle = clamp90 target ∧
    (servo_timer_cb cfg (servo_run cfg (cfg - 1) (set_servo cfg target cb s))).2 = cb ∧
    (∀ (up down : Int) (cb1 cb2 : Bool) (s2 : servo_state), -90 ≤ down → down ≤ 90 →
      (servo_run cfg cfg (set_servo cfg down cb2
        (servo_run cfg cfg (set_servo cfg up cb1 s2)))).servo_angle = down) := by
  have hcz : cfg ≠ 0 := by omega
  obtain ⟨hf1, hf2, hf3, hf4, hf5, hf6⟩ := set_servo_fields cfg target cb s hcz
  have hcb := clamp90_bounds target
  have hsnap := servo_run_snap cfg cfg (set_servo cfg target cb s) hf3
    (by rw [hf2]; omega) hcfg
  refine ⟨hf1, hcb, ?_, ?_, ?_, ?_⟩
  · intro k hk
    by_cases hc1 : cfg = 1
    · subst hc1
      have hk0 : k = 0 := by omega
      subst hk0
      simp [servo_run, hf5]
    · have hcfg2 : 2 ≤ cfg := by omega
      have hq := tdiv_range (clamp90 target - s.servo_angle) cfg hcfg2
        (by omega) (by omega)
      have hss : (set_servo cfg target cb s).servo_step_size =
          (clamp90 target - s.servo_angle).tdiv (cfg : Int) := by
        rw [hf6]
        exact int8_of_id _ (by omega) (by omega)
      have inv := servo_run_invariant cfg s.servo_angle (clamp90 target)
        ((clamp90 target - s.servo_angle).tdiv (cfg : Int)) hcfg2 ha1 ha2 hcb.1 hcb.2
        rfl k 0 (by omega) (set_servo cfg target cb s) (by rw [hf5]; simp)
        hf1 hf2 hss hf3
      rw [inv.1]
      simp
  · rw [hsnap.1, hf1]
  · by_cases hc1 : cfg = 1
    · subst hc1
      have hrun : servo_run 1 (1 - 1) (set_servo 1 target cb s) =
          set_servo 1 target cb s := by
        simp [servo_run]
      rw [hrun, servo_timer_cb]
      simp [hf3, hf2, hf4]
    · have hcfg2 : 2 ≤ cfg := by omega
      have hq := tdiv_range (clamp90 target - s.servo_angle) cfg hcfg2
        (by omega) (by omega)
      have hss : (set_servo cfg target cb s).servo_step_size =
          (clamp90 target - s.servo_angle).tdiv (cfg : Int) := by
        rw [hf6]
        exact int8_of_id _ (by omega) (by omega)
      have inv := servo_run_invariant cfg s.servo_angle (clamp90 target)
        ((clamp90 target - s.servo_angle).tdiv (cfg : Int)) hcfg2 ha1 ha2 hcb.1 hcb.2
        rfl (cfg - 1) 0 (by omega) (set_servo cfg target cb s) (by rw [hf5]; simp)
        hf1 hf2 hss hf3
      rw [servo_timer_cb]
      have hfin : cfg ≤ (servo_run cfg (cfg - 1) (set_servo cfg target cb s)).servo_step
          + 1 := by
        rw [inv.2.1]
        omega
      simp [inv.2.2.2.2.1, hfin, inv.2.2.2.2.2, hf4]
  · intro up down cb1 cb2 s2 hd1 hd2
    obtain ⟨g1, g2, g3, g4, g5, g6⟩ := set_servo_fields cfg down cb2
      (servo_run cfg cfg (set_servo cfg up cb1 s2)) hcz
    have hsnap2 := servo_run_snap cfg cfg
      (set_servo cfg down cb2 (servo_run cfg cfg (set_servo cfg up cb1 s2))) g3
      (by rw [g2]; omega) hcfg
    rw [hsnap2.1, g1, clamp90_id down hd1 hd2]

/-- Claim C8, witness: a three-step move of the resting servo from +90 to
-90 ends exactly at the clamped target, and an up-then-down sequence with a
single-step configuration ends exactly at the -90 down angle. -/
theorem servo_move_semantics_witness :
    (servo_run 3 3 (set_servo 3 (-90) true ex_servo_rest)).servo_angle =
      clamp90 (-90) ∧
    (servo_run 1 1 (set_servo 1 (-90) true
      (servo_run 1 1 (set_servo 1 90 true ex_servo_rest)))).servo_angle = -90 := by
  have h3 := servo_move_semantics 3 (-90) true ex_servo_rest
    (by decide) (by decide) (by decide)
  have h1 := servo_move_semantics 1 (-90) true ex_servo_rest
    (by decide) (by decide) (by decide)
  exact ⟨h3.2.2.2.1, h1.2.2.2.2.2 90 (-90) true true ex_servo_rest
    (by decide) (by decide)⟩
